import Mathlib

/-!
Verification of the FHIR-Converter template detection/scoring/synthesis core.

This file gives a shallow embedding, in Lean 4, of the algorithmic core of the
repository:

* `BaseTemplateEngine` (src/unnamed/part_001): structure analysis
  (`analyzeStructure`), nested-path lookup (`getNestedValue`, `findFieldValue`),
  template scoring (`scoreTemplates`) and selection (`selectBestTemplate`);
* `PatientTemplateEngine` (backend/src/engines/PatientTemplateEngine.ts): the
  49-template registry and `canHandle`;
* `ResourceTypeDetector` (backend/src/engines/ResourceTypeDetector.ts);
* `SemanticFieldDetector` (backend/src/engines/SemanticFieldDetector.ts):
  word-boundary pattern matching, per-field analysis, traversal, consolidation;
* `IntelligentTemplateGenerator.analyzeAndGenerate` and
  `IntelligentTemplateService.processIntelligentConversion` (backend/dist).

JSON documents are modelled by the inductive `Json`; JavaScript numbers are
modelled by exact rationals (ℚ); JavaScript `undefined` is modelled by `Option`
(`none` = absent/undefined).  A JS `Map` is modelled by an insertion-ordered
association list; `Array.prototype.sort` (stable in Node) by `List.mergeSort`.
-/

namespace FHIRConv

/-- A JSON value.  `null`, booleans, numbers (exact rationals), strings,
arrays and objects (insertion-ordered key/value lists, keys unique in practice). -/
inductive Json where
  | null
  | bool (b : Bool)
  | num (q : ℚ)
  | str (s : String)
  | arr (elems : List Json)
  | obj (fields : List (String × Json))

mutual
/-- Decidable equality for `Json` (the automatic derivation does not handle the
nested `List` occurrences). -/
def Json.decEq : (a b : Json) → Decidable (a = b)
  | .null, .null => .isTrue rfl
  | .bool a, .bool b =>
    if h : a = b then .isTrue (by rw [h]) else .isFalse (by simp [h])
  | .num a, .num b =>
    if h : a = b then .isTrue (by rw [h]) else .isFalse (by simp [h])
  | .str a, .str b =>
    if h : a = b then .isTrue (by rw [h]) else .isFalse (by simp [h])
  | .arr a, .arr b =>
    match Json.decEqList a b with
    | .isTrue h => .isTrue (by rw [h])
    | .isFalse h => .isFalse (by simp [h])
  | .obj a, .obj b =>
    match Json.decEqFields a b with
    | .isTrue h => .isTrue (by rw [h])
    | .isFalse h => .isFalse (by simp [h])
  | .null, .bool _ => .isFalse nofun
  | .null, .num _ => .isFalse nofun
  | .null, .str _ => .isFalse nofun
  | .null, .arr _ => .isFalse nofun
  | .null, .obj _ => .isFalse nofun
  | .bool _, .null => .isFalse nofun
  | .bool _, .num _ => .isFalse nofun
  | .bool _, .str _ => .isFalse nofun
  | .bool _, .arr _ => .isFalse nofun
  | .bool _, .obj _ => .isFalse nofun
  | .num _, .null => .isFalse nofun
  | .num _, .bool _ => .isFalse nofun
  | .num _, .str _ => .isFalse nofun
  | .num _, .arr _ => .isFalse nofun
  | .num _, .obj _ => .isFalse nofun
  | .str _, .null => .isFalse nofun
  | .str _, .bool _ => .isFalse nofun
  | .str _, .num _ => .isFalse nofun
  | .str _, .arr _ => .isFalse nofun
  | .str _, .obj _ => .isFalse nofun
  | .arr _, .null => .isFalse nofun
  | .arr _, .bool _ => .isFalse nofun
  | .arr _, .num _ => .isFalse nofun
  | .arr _, .str _ => .isFalse nofun
  | .arr _, .obj _ => .isFalse nofun
  | .obj _, .null => .isFalse nofun
  | .obj _, .bool _ => .isFalse nofun
  | .obj _, .num _ => .isFalse nofun
  | .obj _, .str _ => .isFalse nofun
  | .obj _, .arr _ => .isFalse nofun

/-- Decidable equality of JSON arrays' element lists. -/
def Json.decEqList : (a b : List Json) → Decidable (a = b)
  | [], [] => .isTrue rfl
  | [], _ :: _ => .isFalse nofun
  | _ :: _, [] => .isFalse nofun
  | x :: xs, y :: ys =>
    match Json.decEq x y, Json.decEqList xs ys with
    | .isTrue h1, .isTrue h2 => .isTrue (by rw [h1, h2])
    | .isFalse h1, _ => .isFalse (fun h => by injection h with hh _; exact h1 hh)
    | _, .isFalse h2 => .isFalse (fun h => by injection h with _ hh; exact h2 hh)

/-- Decidable equality of JSON objects' field lists. -/
def Json.decEqFields : (a b : List (String × Json)) → Decidable (a = b)
  | [], [] => .isTrue rfl
  | [], _ :: _ => .isFalse nofun
  | _ :: _, [] => .isFalse nofun
  | (k, v) :: xs, (l, w) :: ys =>
    if hk : k = l then
      match Json.decEq v w, Json.decEqFields xs ys with
      | .isTrue h1, .isTrue h2 => .isTrue (by rw [hk, h1, h2])
      | .isFalse h1, _ => .isFalse (fun h => by
          injection h with hh _; exact h1 (congrArg Prod.snd hh))
      | _, .isFalse h2 => .isFalse (fun h => by injection h with _ hh; exact h2 hh)
    else
      .isFalse (fun h => by injection h with hh _; exact hk (congrArg Prod.fst hh))
end

instance : DecidableEq Json := Json.decEq

namespace Json

/-- JS `typeof x === 'object' && x !== null`: a non-null object or an array. -/
def objLike : Json → Bool
  | .arr _ => true
  | .obj _ => true
  | _ => false

/-- JS truthiness of a JSON value (`undefined` is handled by `Option` outside). -/
def truthy : Json → Bool
  | .null => false
  | .bool b => b
  | .num q => q ≠ 0
  | .str s => s ≠ ""
  | .arr _ => true
  | .obj _ => true

end Json

/-- Kernel-reducible equivalent of `String.toLower` (which is defined by
well-founded recursion on string positions and so does not evaluate inside
proofs): lowercase each character. -/
def strLower (s : String) : String :=
  String.mk (s.toList.map Char.toLower)

/-- Worker for `strSplitOnDot`: split at `'.'`, accumulating the current
segment in reverse. -/
def splitOnCharAux (c : Char) : List Char → List Char → List String
  | [], cur => [String.mk cur.reverse]
  | x :: xs, cur =>
    if x = c then String.mk cur.reverse :: splitOnCharAux c xs []
    else splitOnCharAux c xs (x :: cur)

/-- Kernel-reducible equivalent of `String.splitOn "."` / JS `split('.')`
(`"" ↦ [""]`, `"a.b" ↦ ["a","b"]`, `"a." ↦ ["a",""]`). -/
def strSplitOnDot (s : String) : List String :=
  splitOnCharAux '.' s.toList []

/-- Kernel-reducible equivalent of `String.startsWith` / JS `startsWith`. -/
def strStartsWith (s p : String) : Bool :=
  p.toList.isPrefixOf s.toList

/-- A canonical (no leading zero) decimal numeral, as used for JS array indexing:
`arr["2"]` hits index 2, `arr["02"]` does not. -/
def canonIndex (key : String) : Option Nat :=
  let cs := key.toList
  if cs ≠ [] ∧ cs.all Char.isDigit ∧ (cs = ['0'] ∨ cs.head? ≠ some '0') then
    some (cs.foldl (fun acc c => acc * 10 + (c.toNat - '0'.toNat)) 0)
  else
    none

/-- One step of JS property access `j[key]` for the property names that occur in
source-path patterns: object keys, array indices and `length`, string indices
and `length`.  `none` models `undefined`. -/
def jsProp (j : Json) (key : String) : Option Json :=
  match j with
  | .obj fields => fields.lookup key
  | .arr l =>
    if key = "length" then some (.num l.length)
    else match canonIndex key with
      | some n => l.get? n
      | none => none
  | .str s =>
    if key = "length" then some (.num s.length)
    else match canonIndex key with
      | some n => (s.toList.get? n).map (fun c => .str (String.mk [c]))
      | none => none
  | _ => none

/-- `BaseTemplateEngine.getNestedValue`: follow a dot-separated path, giving up
(`undefined`) as soon as the current value is falsy or lacks the key. -/
def getNestedValue (j : Json) (path : String) : Option Json :=
  (strSplitOnDot path).foldl
    (fun current key =>
      match current with
      | none => none
      | some c => if c.truthy then jsProp c key else none)
    (some j)

/-- `BaseTemplateEngine.findFieldValue`: the first pattern whose nested value is
neither `undefined` nor `null`; `none` models the JS `null` returned otherwise. -/
def findFieldValue (j : Json) (patterns : List String) : Option Json :=
  match patterns with
  | [] => none
  | p :: rest =>
    match getNestedValue j p with
    | some .null => findFieldValue j rest
    | some v => some v
    | none => findFieldValue j rest

/-- `StructureAnalysis` of src/unnamed/part_001. -/
structure StructureAnalysis where
  maxDepth : Nat
  hasArrays : Bool
  hasNestedObjects : Bool
  fieldCount : Nat
  allFields : List String
deriving DecidableEq

/-- Pointwise combination of the contributions two disjoint parts of the
traversal make to the one mutable `analysis` record of `analyzeStructure`. -/
def StructureAnalysis.merge (a b : StructureAnalysis) : StructureAnalysis :=
  ⟨max a.maxDepth b.maxDepth, a.hasArrays || b.hasArrays,
   a.hasNestedObjects || b.hasNestedObjects,
   a.fieldCount + b.fieldCount, a.allFields ++ b.allFields⟩

/-- `path ? `${path}.${key}` : key` of the traversal. -/
def joinPath (path key : String) : String :=
  if path = "" then key else path ++ "." ++ key

mutual
/-- The `traverse` closure of `BaseTemplateEngine.analyzeStructure`, written as
a pure function returning the contribution of the subtree at `j`, visited at
`depth` with dotted path `path`.  Arrays mark `hasArrays` and recurse into
object-like elements at the *same* depth; objects at `depth > 0` mark
`hasNestedObjects`, record each key's dotted path, and recurse into object-like
values at `depth + 1`; other values only register their depth. -/
def trav : Json → String → Nat → StructureAnalysis
  | .arr l, path, depth =>
    StructureAnalysis.merge ⟨depth, true, false, 0, []⟩ (travArr l path depth 0)
  | .obj fs, path, depth =>
    StructureAnalysis.merge ⟨depth, false, decide (0 < depth), 0, []⟩
      (travObj fs path depth)
  | _, _, depth => ⟨depth, false, false, 0, []⟩

/-- Contribution of an array's elements (`obj.forEach` with index `i`): only
object-like elements are visited, at the same depth, under path `path[i]`. -/
def travArr : List Json → String → Nat → Nat → StructureAnalysis
  | [], _, _, _ => ⟨0, false, false, 0, []⟩
  | item :: rest, path, depth, i =>
    let tail := travArr rest path depth (i + 1)
    if item.objLike then
      StructureAnalysis.merge
        (trav item (path ++ "[" ++ toString i ++ "]") depth) tail
    else tail

/-- Contribution of an object's entries (`Object.keys(obj).forEach`): each key
appends its dotted path and counts one field, then object-like values are
visited at `depth + 1`. -/
def travObj : List (String × Json) → String → Nat → StructureAnalysis
  | [], _, _ => ⟨0, false, false, 0, []⟩
  | (k, v) :: rest, path, depth =>
    let fieldPath := joinPath path k
    let own : StructureAnalysis := ⟨0, false, false, 1, [fieldPath]⟩
    let sub :=
      if v.objLike then trav v fieldPath (depth + 1)
      else (⟨0, false, false, 0, []⟩ : StructureAnalysis)
    StructureAnalysis.merge (StructureAnalysis.merge own sub)
      (travObj rest path depth)
end

/-- `BaseTemplateEngine.analyzeStructure`: the traversal started at the root
with empty path and depth 0. -/
def analyzeStructure (j : Json) : StructureAnalysis :=
  trav j "" 0

/-! ### Stable sorting

Node's `Array.prototype.sort` is stable; all comparators in this codebase have
the shape `(a, b) => b.key - a.key` (descending by a numeric key, ties kept in
original order).  A stable sort for a given "strictly precedes" relation is
unique, so a structural insertion sort is an exact model (and, unlike
`List.mergeSort`, reduces inside the kernel). -/

/-- Insert `x` into `l`, passing over exactly the elements that strictly
precede it (`prec y x = true`), so that `x` lands before any element it ties
with — `x` comes from earlier in the original list. -/
def stableInsert (prec : α → α → Bool) (x : α) : List α → List α
  | [] => [x]
  | y :: ys => if prec y x then y :: stableInsert prec x ys else x :: y :: ys

/-- Stable sort by the strict relation `prec`: the unique permutation that is
sorted for `prec` and keeps tied elements in input order. -/
def stableSort (prec : α → α → Bool) (l : List α) : List α :=
  l.foldr (stableInsert prec) []

theorem mem_stableInsert (prec : α → α → Bool) (x a : α) (l : List α) :
    a ∈ stableInsert prec x l ↔ a = x ∨ a ∈ l := by
  induction l with
  | nil => simp [stableInsert]
  | cons y ys ih =>
    by_cases h : prec y x = true
    · simp only [stableInsert, h, if_true, List.mem_cons, ih]
      tauto
    · simp [stableInsert, h]

theorem mem_stableSort (prec : α → α → Bool) (a : α) (l : List α) :
    a ∈ stableSort prec l ↔ a ∈ l := by
  induction l with
  | nil => simp [stableSort]
  | cons x xs ih =>
    unfold stableSort at ih ⊢
    simp only [List.foldr_cons, mem_stableInsert, ih, List.mem_cons]

theorem length_stableInsert (prec : α → α → Bool) (x : α) (l : List α) :
    (stableInsert prec x l).length = l.length + 1 := by
  induction l with
  | nil => rfl
  | cons y ys ih =>
    by_cases h : prec y x = true <;> simp [stableInsert, h, ih]

theorem length_stableSort (prec : α → α → Bool) (l : List α) :
    (stableSort prec l).length = l.length := by
  induction l with
  | nil => rfl
  | cons x xs ih =>
    unfold stableSort at ih ⊢
    simp only [List.foldr_cons, length_stableInsert, ih, List.length_cons]

/-! ### Template metadata and scoring (src/unnamed/part_001) -/

/-- `FieldMapping` of src/unnamed/part_001. -/
structure FieldMapping where
  fhirField : String
  jsonPatterns : List String
  weight : ℚ
  required : Bool
  dataType : String
deriving DecidableEq

/-- `TemplateMetadata.structurePatterns`. -/
structure StructurePatterns where
  maxDepth : Nat
  hasArrays : Bool
  hasNestedObjects : Bool
  expectedFields : List String
deriving DecidableEq

/-- `TemplateMetadata` of src/unnamed/part_001. -/
structure TemplateMetadata where
  name : String
  description : String
  priority : Nat
  resourceType : String
  fieldMappings : List FieldMapping
  structurePatterns : StructurePatterns
deriving DecidableEq

/-- One entry of `TemplateScore.matches`. -/
structure ScoreMatch where
  field : String
  matched : String
  weight : ℚ
deriving DecidableEq

/-- `TemplateScore` of src/unnamed/part_001. -/
structure TemplateScore where
  templateName : String
  resourceType : String
  score : ℚ
  confidence : ℚ
  «matches» : List ScoreMatch
  missingRequired : List String
deriving DecidableEq

/-- Substring test at every start position (worker for `strIncludes`). -/
def strIncludesGo (sub : List Char) : List Char → Bool
  | [] => sub.isEmpty
  | c :: rest => sub.isPrefixOf (c :: rest) || strIncludesGo sub rest

/-- JS `String.prototype.includes`: substring test. -/
def strIncludes (s sub : String) : Bool :=
  strIncludesGo sub.toList s.toList

/-- Running state of the per-template loop body of
`BaseTemplateEngine.scoreTemplates`: `totalScore`, `maxPossibleScore`,
`matches` and `missingRequired` accumulated over the field mappings. -/
structure ScoreAcc where
  totalScore : ℚ
  maxPossibleScore : ℚ
  «matches» : List ScoreMatch
  missingRequired : List String

/-- One iteration of `for (const mapping of template.fieldMappings)`. -/
def scoreMappingStep (json : Json) (acc : ScoreAcc) (mapping : FieldMapping) :
    ScoreAcc :=
  let acc := { acc with maxPossibleScore := acc.maxPossibleScore + mapping.weight }
  match findFieldValue json mapping.jsonPatterns with
  | some _ =>
    let matchedPattern :=
      (mapping.jsonPatterns.find? fun pattern =>
        (getNestedValue json pattern).isSome).getD "unknown"
    { acc with
      totalScore := acc.totalScore + mapping.weight
      «matches» := acc.«matches» ++ [⟨mapping.fhirField, matchedPattern, mapping.weight⟩] }
  | none =>
    if mapping.required then
      { acc with
        totalScore := acc.totalScore - mapping.weight * 2
        missingRequired := acc.missingRequired ++ [mapping.fhirField] }
    else acc

/-- The structural compatibility subscore of `scoreTemplates` (out of the
structural weight 20): +5 for depth, +5 for array agreement, +5 for
nested-object agreement, plus 5 scaled by the fraction of expected fields found
as substrings of some analyzed field path. -/
def structureScore (st : StructureAnalysis) (sp : StructurePatterns) : ℚ :=
  (if st.maxDepth ≤ sp.maxDepth then 5 else 0) +
  (if st.hasArrays = sp.hasArrays then 5 else 0) +
  (if st.hasNestedObjects = sp.hasNestedObjects then 5 else 0) +
  (((sp.expectedFields.filter fun field =>
      st.allFields.any fun f => strIncludes f field).length : ℚ) /
    (sp.expectedFields.length : ℚ)) * 5

/-- The body of the per-template loop of `BaseTemplateEngine.scoreTemplates`:
score one registered template against the document and its structure profile. -/
def scoreOne (resourceType : String) (json : Json) (st : StructureAnalysis)
    (templateName : String) (t : TemplateMetadata) : TemplateScore :=
  let acc0 : ScoreAcc := ⟨structureScore st t.structurePatterns, 20, [], []⟩
  let acc := t.fieldMappings.foldl (scoreMappingStep json) acc0
  let confidence := max 0 (min 100 (acc.totalScore / acc.maxPossibleScore * 100))
  ⟨templateName, resourceType, acc.totalScore, confidence, acc.«matches»,
    acc.missingRequired⟩

/-- `BaseTemplateEngine.scoreTemplates`: score every registered template, then
sort descending by raw score (`(a, b) => b.score - a.score`, stable). -/
def scoreTemplates (templates : List (String × TemplateMetadata))
    (resourceType : String) (json : Json) : List TemplateScore :=
  let st := analyzeStructure json
  stableSort (fun a b => b.score < a.score)
    (templates.map fun nt => scoreOne resourceType json st nt.1 nt.2)

/-- `TemplateSelection` of src/unnamed/part_001. -/
structure TemplateSelection where
  selected : TemplateScore
  alternatives : List TemplateScore
  recommendation : String
deriving DecidableEq

/-- `BaseTemplateEngine.selectBestTemplate`.  `none` models the crash the JS
code would have on an empty registry (`scores[0]` is `undefined` there); every
engine in the repository registers a non-empty registry. -/
def selectBestTemplate (templates : List (String × TemplateMetadata))
    (resourceType : String) (json : Json) : Option TemplateSelection :=
  match scoreTemplates templates resourceType json with
  | [] => none
  | best :: rest =>
    let base :=
      if 80 ≤ best.confidence then
        "High confidence match with " ++ best.templateName
      else if 60 ≤ best.confidence then
        "Moderate confidence match with " ++ best.templateName ++
          ". Consider reviewing field mappings."
      else if 40 ≤ best.confidence then
        "Low confidence match. " ++ best.templateName ++
          " selected but manual review recommended."
      else
        "Very low confidence. Consider creating a custom template or check data format."
    let recommendation :=
      if best.missingRequired.length > 0 then
        base ++ " Missing required fields: " ++
          String.intercalate ", " best.missingRequired ++ "."
      else base
    some ⟨best, rest.take 2, recommendation⟩

/-! ### PatientTemplateEngine: field synonyms and the 49-template registry
(backend/src/engines/PatientTemplateEngine.ts, `initializeFieldSynonyms` and
`loadTemplateMetadata`). -/

def firstNameSynonyms : List String :=
  ["firstName", "first_name", "fname", "givenName", "given_name",
   "forename", "FirstName", "FIRST_NAME", "given"]

def lastNameSynonyms : List String :=
  ["lastName", "last_name", "lname", "surname", "familyName",
   "family_name", "LastName", "LAST_NAME", "family"]

def dateOfBirthSynonyms : List String :=
  ["dateOfBirth", "dob", "DOB", "birthDate", "birth_date",
   "birthdate", "date_of_birth", "DateOfBirth", "BIRTH_DATE"]

def genderSynonyms : List String :=
  ["gender", "sex", "Gender", "SEX", "patient_gender", "patientGender"]

def patientIdSynonyms : List String :=
  ["patientId", "patient_id", "id", "ID", "PatientId", "PATIENT_ID",
   "mrn", "MRN", "medical_record_number", "medicalRecordNumber"]

def phoneNumberSynonyms : List String :=
  ["phoneNumber", "phone_number", "phone", "telephone", "tel",
   "PhoneNumber", "PHONE_NUMBER", "contact_number", "contactNumber"]

def emailSynonyms : List String :=
  ["email", "emailAddress", "email_address", "Email", "EMAIL_ADDRESS"]

def addressSynonyms : List String :=
  ["address", "Address", "ADDRESS", "street_address", "streetAddress"]

def patientBasic : TemplateMetadata :=
  { name := "PatientBasic"
    description := "Simple flat JSON structure with basic patient fields"
    priority := 1, resourceType := "Patient"
    structurePatterns := ⟨1, false, false, ["firstName", "lastName", "patientId"]⟩
    fieldMappings :=
      [⟨"name.given", firstNameSynonyms, 10, true, "string"⟩,
       ⟨"name.family", lastNameSynonyms, 10, true, "string"⟩,
       ⟨"id", patientIdSynonyms, 8, true, "string"⟩,
       ⟨"birthDate", dateOfBirthSynonyms, 7, false, "date"⟩,
       ⟨"gender", genderSynonyms, 5, false, "string"⟩,
       ⟨"telecom", phoneNumberSynonyms, 3, false, "string"⟩] }

def patientNested : TemplateMetadata :=
  { name := "PatientNested"
    description := "Nested JSON structure with objects and arrays"
    priority := 2, resourceType := "Patient"
    structurePatterns := ⟨3, true, true, ["patient", "name", "contact"]⟩
    fieldMappings :=
      [⟨"name.given", ["patient.name.first", "name.first", "patient.firstName", "name.given"], 10, true, "string"⟩,
       ⟨"name.family", ["patient.name.last", "name.last", "patient.lastName", "name.family"], 10, true, "string"⟩,
       ⟨"id", ["patient.id", "patient.patientId", "id", "patientInfo.id"], 8, true, "string"⟩,
       ⟨"telecom", ["contact.phone", "patient.contact.phone", "contact.phoneNumbers", "phoneNumbers"], 5, false, "array"⟩,
       ⟨"birthDate", ["patient.birthDate", "demographics.birthDate", "patient.dob"], 7, false, "date"⟩] }

def patientEHR : TemplateMetadata :=
  { name := "PatientEHR"
    description := "EHR-style JSON with medical identifiers and codes"
    priority := 3, resourceType := "Patient"
    structurePatterns := ⟨2, true, true, ["mrn", "identifiers", "demographics"]⟩
    fieldMappings :=
      [⟨"identifier", ["mrn", "MRN", "identifiers", "medicalRecordNumber"], 12, true, "string"⟩,
       ⟨"name.given", ["demographics.firstName", "name.first", "patientName.first"], 10, true, "string"⟩,
       ⟨"name.family", ["demographics.lastName", "name.last", "patientName.last"], 10, true, "string"⟩,
       ⟨"birthDate", ["demographics.dateOfBirth", "demographics.dob", "birthInfo.date"], 7, false, "date"⟩,
       ⟨"gender", ["demographics.gender", "demographics.sex", "personalDetails.gender"], 5, false, "string"⟩] }

def patientComplex : TemplateMetadata :=
  { name := "PatientComplex"
    description := "Complex nested structure with deep objects and arrays"
    priority := 4, resourceType := "Patient"
    structurePatterns := ⟨4, true, true, ["patientInfo", "personalDetails", "contactDetails"]⟩
    fieldMappings :=
      [⟨"name.given", ["patientInfo.personalDetails.name.given", "personalDetails.name.given"], 10, true, "array"⟩,
       ⟨"name.family", ["patientInfo.personalDetails.name.family", "personalDetails.name.family"], 10, true, "string"⟩,
       ⟨"id", ["patientInfo.id", "id"], 8, true, "string"⟩,
       ⟨"birthDate", ["patientInfo.personalDetails.birthInfo.date", "personalDetails.birthInfo.date"], 7, false, "date"⟩,
       ⟨"telecom", ["patientInfo.contactDetails", "contactDetails"], 5, false, "array"⟩] }

def patientArray : TemplateMetadata :=
  { name := "PatientArray"
    description := "JSON structure with patients contained within arrays or collections"
    priority := 5, resourceType := "Patient"
    structurePatterns := ⟨2, true, true, ["patients", "facilityInfo"]⟩
    fieldMappings :=
      [⟨"name.given", ["patients[0].givenName", "patients[0].firstName", "patients.0.givenName", "patients.0.firstName"], 10, true, "string"⟩,
       ⟨"name.family", ["patients[0].familyName", "patients[0].lastName", "patients.0.familyName", "patients.0.lastName"], 10, true, "string"⟩,
       ⟨"id", ["patients[0].patientId", "patients[0].id", "patients.0.patientId", "patients.0.id"], 8, true, "string"⟩,
       ⟨"birthDate", ["patients[0].birthDate", "patients[0].dob", "patients.0.birthDate", "patients.0.dob"], 7, false, "date"⟩,
       ⟨"gender", ["patients[0].sex", "patients[0].gender", "patients.0.sex", "patients.0.gender"], 5, false, "string"⟩,
       ⟨"telecom", ["patients[0].phoneNumbers", "patients.0.phoneNumbers"], 3, false, "array"⟩] }

def patientMinimal : TemplateMetadata :=
  { name := "PatientMinimal"
    description := "Minimal JSON structure with only basic required fields"
    priority := 6, resourceType := "Patient"
    structurePatterns := ⟨1, false, false, ["id", "name"]⟩
    fieldMappings :=
      [⟨"id", ["id", "patientId", "patient_id"], 8, true, "string"⟩,
       ⟨"name", ["name", "fullName", "patientName"], 12, false, "string"⟩,
       ⟨"name.given", ["firstName", "first_name"], 5, false, "string"⟩,
       ⟨"name.family", ["lastName", "last_name"], 5, false, "string"⟩,
       ⟨"birthDate", ["dob", "dateOfBirth", "birthDate"], 4, false, "date"⟩,
       ⟨"gender", ["gender", "sex"], 3, false, "string"⟩] }

def patientResearch : TemplateMetadata :=
  { name := "PatientResearch"
    description := "JSON structure for research study participants"
    priority := 7, resourceType := "Patient"
    structurePatterns := ⟨3, false, true, ["subjectId", "demographics", "studyParticipation"]⟩
    fieldMappings :=
      [⟨"id", ["subjectId", "participantId", "subject_id", "participant_id"], 10, true, "string"⟩,
       ⟨"gender", ["demographics.gender", "demographics.sex"], 5, false, "string"⟩,
       ⟨"age", ["demographics.age", "age"], 5, false, "number"⟩,
       ⟨"ethnicity", ["demographics.ethnicity", "ethnicity"], 4, false, "string"⟩,
       ⟨"studyName", ["studyParticipation.studyName", "study.name"], 8, false, "string"⟩,
       ⟨"enrolledDate", ["studyParticipation.enrolledDate", "study.enrollmentDate"], 6, false, "date"⟩,
       ⟨"lifestyle", ["lifestyle", "lifestyleFactors"], 5, false, "object"⟩,
       ⟨"consent", ["studyParticipation.consentSigned", "consent.signed"], 4, false, "boolean"⟩] }

def patientMRN : TemplateMetadata :=
  { name := "PatientMRN"
    description := "Patient with Medical Record Number identifier"
    priority := 8, resourceType := "Patient"
    structurePatterns := ⟨2, false, false, ["mrn", "MRN", "medicalRecordNumber"]⟩
    fieldMappings :=
      [⟨"identifier", ["mrn", "MRN", "medicalRecordNumber", "medical_record_number"], 12, true, "string"⟩] }

def patientSSN : TemplateMetadata :=
  { name := "PatientSSN"
    description := "Patient with Social Security Number"
    priority := 9, resourceType := "Patient"
    structurePatterns := ⟨2, false, false, ["ssn", "SSN", "socialSecurityNumber"]⟩
    fieldMappings :=
      [⟨"identifier", ["ssn", "SSN", "socialSecurityNumber", "social_security_number"], 12, true, "string"⟩] }

def patientDriverLicense : TemplateMetadata :=
  { name := "PatientDriverLicense"
    description := "Patient with Driver License identifier"
    priority := 10, resourceType := "Patient"
    structurePatterns := ⟨2, false, false, ["driverLicense", "driversLicense", "dlNumber"]⟩
    fieldMappings :=
      [⟨"identifier", ["driverLicense", "driversLicense", "dlNumber", "driver_license_number"], 12, true, "string"⟩,
       ⟨"address.state", ["dlState", "state"], 5, false, "string"⟩] }

def patientPassport : TemplateMetadata :=
  { name := "PatientPassport"
    description := "Patient with Passport identifier"
    priority := 11, resourceType := "Patient"
    structurePatterns := ⟨2, false, false, ["passport", "passportNumber"]⟩
    fieldMappings :=
      [⟨"identifier", ["passport", "passportNumber", "passport_number"], 12, true, "string"⟩,
       ⟨"nationality", ["nationality", "country", "passportCountry"], 6, false, "string"⟩] }

def patientNationalID : TemplateMetadata :=
  { name := "PatientNationalID"
    description := "Patient with National ID identifier"
    priority := 12, resourceType := "Patient"
    structurePatterns := ⟨2, false, false, ["nationalId", "nationalID", "nin"]⟩
    fieldMappings :=
      [⟨"identifier", ["nationalId", "nationalID", "nin", "national_id", "nhsNumber"], 12, true, "string"⟩,
       ⟨"country", ["country"], 4, false, "string"⟩] }

def patientInsurance : TemplateMetadata :=
  { name := "PatientInsurance"
    description := "Patient with Insurance/Member ID"
    priority := 13, resourceType := "Patient"
    structurePatterns := ⟨2, false, false, ["insuranceId", "memberId", "policyNumber"]⟩
    fieldMappings :=
      [⟨"identifier", ["insuranceId", "memberId", "policyNumber", "insurance_id"], 10, true, "string"⟩,
       ⟨"assigner", ["insuranceProvider", "insurer"], 6, false, "string"⟩] }

def patientEmployee : TemplateMetadata :=
  { name := "PatientEmployee"
    description := "Patient with Employee ID"
    priority := 14, resourceType := "Patient"
    structurePatterns := ⟨2, false, false, ["employeeId", "employeeNumber", "staffId"]⟩
    fieldMappings :=
      [⟨"identifier", ["employeeId", "employeeNumber", "staffId", "employee_id"], 10, true, "string"⟩,
       ⟨"employer", ["company", "employer"], 5, false, "string"⟩] }

def patientStudent : TemplateMetadata :=
  { name := "PatientStudent"
    description := "Patient with Student ID"
    priority := 15, resourceType := "Patient"
    structurePatterns := ⟨2, false, false, ["studentId", "studentNumber", "universityId"]⟩
    fieldMappings :=
      [⟨"identifier", ["studentId", "studentNumber", "universityId", "student_id"], 10, true, "string"⟩,
       ⟨"school", ["school", "university", "institution"], 5, false, "string"⟩] }

def patientUUID : TemplateMetadata :=
  { name := "PatientUUID"
    description := "Patient with UUID/System ID"
    priority := 16, resourceType := "Patient"
    structurePatterns := ⟨3, false, true, ["uuid", "guid", "systemId"]⟩
    fieldMappings :=
      [⟨"identifier", ["uuid", "guid", "systemId", "recordId"], 8, true, "string"⟩,
       ⟨"system", ["system", "systemName"], 4, false, "string"⟩] }

def patientMultipleIDs : TemplateMetadata :=
  { name := "PatientMultipleIDs"
    description := "Patient with multiple identifiers"
    priority := 17, resourceType := "Patient"
    structurePatterns := ⟨3, true, true, ["identifiers", "ids"]⟩
    fieldMappings :=
      [⟨"identifier", ["identifiers", "ids"], 15, true, "array"⟩,
       ⟨"primaryId", ["primaryId", "identifiers[0].value", "ids[0]"], 8, false, "string"⟩] }

def patientSingleName : TemplateMetadata :=
  { name := "PatientSingleName"
    description := "Patient with single name field"
    priority := 18, resourceType := "Patient"
    structurePatterns := ⟨1, false, false, ["name", "fullName", "patientName"]⟩
    fieldMappings :=
      [⟨"name", ["name", "fullName", "patientName", "patient_name"], 12, true, "string"⟩] }

def patientGivenFamily : TemplateMetadata :=
  { name := "PatientGivenFamily"
    description := "Patient with separate given/family names"
    priority := 19, resourceType := "Patient"
    structurePatterns := ⟨1, false, false, ["firstName", "lastName", "givenName", "familyName"]⟩
    fieldMappings :=
      [⟨"name.given", ["firstName", "givenName", "given", "first_name"], 10, true, "string"⟩,
       ⟨"name.family", ["lastName", "familyName", "surname", "last_name"], 10, true, "string"⟩] }

def patientTitledName : TemplateMetadata :=
  { name := "PatientTitledName"
    description := "Patient with titles and suffixes"
    priority := 20, resourceType := "Patient"
    structurePatterns := ⟨1, false, false, ["prefix", "title", "suffix"]⟩
    fieldMappings :=
      [⟨"name.prefix", ["prefix", "title"], 8, false, "string"⟩,
       ⟨"name.suffix", ["suffix", "suffixName"], 8, false, "string"⟩,
       ⟨"name.given", ["firstName", "givenName"], 10, true, "string"⟩] }

def patientMultipleNames : TemplateMetadata :=
  { name := "PatientMultipleNames"
    description := "Patient with array of names"
    priority := 21, resourceType := "Patient"
    structurePatterns := ⟨2, true, true, ["names"]⟩
    fieldMappings := [⟨"name", ["names"], 15, true, "array"⟩] }

def patientMaidenName : TemplateMetadata :=
  { name := "PatientMaidenName"
    description := "Patient with maiden/birth name"
    priority := 22, resourceType := "Patient"
    structurePatterns := ⟨1, false, false, ["maidenName", "birthName"]⟩
    fieldMappings :=
      [⟨"name.maiden", ["maidenName", "birthName", "maiden_name"], 12, true, "string"⟩,
       ⟨"name.family", ["lastName", "currentLastName", "marriedName"], 8, false, "string"⟩] }

def patientInternationalName : TemplateMetadata :=
  { name := "PatientInternationalName"
    description := "Patient with cultural/international name format"
    priority := 23, resourceType := "Patient"
    structurePatterns := ⟨1, false, false, ["culture", "nameOrder", "language"]⟩
    fieldMappings :=
      [⟨"name.culture", ["culture", "nameOrder", "language"], 10, true, "string"⟩,
       ⟨"name.native", ["nativeName", "originalName", "transliterationName"], 8, false, "string"⟩] }

def patientNickname : TemplateMetadata :=
  { name := "PatientNickname"
    description := "Patient with nickname/alias"
    priority := 24, resourceType := "Patient"
    structurePatterns := ⟨1, false, false, ["nickname", "alias", "knownAs"]⟩
    fieldMappings :=
      [⟨"name.nickname", ["nickname", "alias", "knownAs", "known_as"], 10, true, "string"⟩] }

def patientProfessionalName : TemplateMetadata :=
  { name := "PatientProfessionalName"
    description := "Patient with professional/legal names"
    priority := 25, resourceType := "Patient"
    structurePatterns := ⟨1, false, false, ["legalName", "professionalName", "businessName"]⟩
    fieldMappings :=
      [⟨"name.legal", ["legalName", "legal_name"], 12, true, "string"⟩,
       ⟨"name.professional", ["professionalName", "businessName", "stageName"], 8, false, "string"⟩] }

def patientNestedName : TemplateMetadata :=
  { name := "PatientNestedName"
    description := "Patient with nested name structure"
    priority := 26, resourceType := "Patient"
    structurePatterns := ⟨3, false, true, ["personalInfo", "demographics", "patient"]⟩
    fieldMappings :=
      [⟨"name.nested", ["personalInfo.name", "demographics.name", "patient.name"], 12, true, "object"⟩] }

def patientEmergencyName : TemplateMetadata :=
  { name := "PatientEmergencyName"
    description := "Patient with emergency contact names"
    priority := 27, resourceType := "Patient"
    structurePatterns := ⟨2, false, true, ["emergencyContact"]⟩
    fieldMappings :=
      [⟨"contact.name", ["emergencyContact.name", "emergency_contact.name"], 10, true, "string"⟩,
       ⟨"name", ["patientName", "name", "fullName"], 8, false, "string"⟩] }

def patientPhone : TemplateMetadata :=
  { name := "PatientPhone"
    description := "Patient with phone contact information"
    priority := 28, resourceType := "Patient"
    structurePatterns := ⟨2, false, false, ["phone", "phoneNumber", "mobilePhone", "homePhone", "workPhone"]⟩
    fieldMappings :=
      [⟨"telecom.phone", ["phone", "phoneNumber", "mobilePhone", "homePhone", "workPhone"], 12, true, "string"⟩,
       ⟨"telecom.system", ["phoneType"], 5, false, "string"⟩] }

def patientEmail : TemplateMetadata :=
  { name := "PatientEmail"
    description := "Patient with email contact information"
    priority := 29, resourceType := "Patient"
    structurePatterns := ⟨2, false, false, ["email", "emailAddress", "personalEmail", "workEmail"]⟩
    fieldMappings :=
      [⟨"telecom.email", ["email", "emailAddress", "personalEmail", "workEmail"], 12, true, "string"⟩,
       ⟨"telecom.system", ["emailType"], 5, false, "string"⟩] }

def patientMultipleContact : TemplateMetadata :=
  { name := "PatientMultipleContact"
    description := "Patient with multiple contact methods"
    priority := 30, resourceType := "Patient"
    structurePatterns := ⟨2, false, false, ["mobilePhone", "homePhone", "workPhone", "personalEmail", "workEmail"]⟩
    fieldMappings :=
      [⟨"telecom.multiple", ["mobilePhone", "homePhone", "workPhone", "personalEmail", "workEmail", "fax"], 15, true, "string"⟩] }

def patientFax : TemplateMetadata :=
  { name := "PatientFax"
    description := "Patient with fax contact information"
    priority := 31, resourceType := "Patient"
    structurePatterns := ⟨2, false, false, ["fax", "faxNumber"]⟩
    fieldMappings := [⟨"telecom.fax", ["fax", "faxNumber"], 10, true, "string"⟩] }

def patientUrl : TemplateMetadata :=
  { name := "PatientUrl"
    description := "Patient with website/URL contact information"
    priority := 32, resourceType := "Patient"
    structurePatterns := ⟨2, false, false, ["website", "url", "personalWebsite", "socialMedia"]⟩
    fieldMappings :=
      [⟨"telecom.url", ["website", "url", "personalWebsite", "socialMedia"], 10, true, "string"⟩] }

def patientNestedContact : TemplateMetadata :=
  { name := "PatientNestedContact"
    description := "Patient with nested contact structures"
    priority := 33, resourceType := "Patient"
    structurePatterns := ⟨3, false, true, ["contact", "contactInfo", "personalInfo"]⟩
    fieldMappings :=
      [⟨"telecom.nested", ["contact.primary", "contactInfo.phone", "personalInfo.contact"], 12, true, "object"⟩] }

def patientMobileOnly : TemplateMetadata :=
  { name := "PatientMobileOnly"
    description := "Patient with mobile-only contact information"
    priority := 34, resourceType := "Patient"
    structurePatterns := ⟨2, false, false, ["mobile", "mobilePhone", "cellPhone"]⟩
    fieldMappings :=
      [⟨"telecom.mobile", ["mobile", "mobilePhone", "cellPhone", "sms", "smsPhone"], 12, true, "string"⟩] }

def patientContactArray : TemplateMetadata :=
  { name := "PatientContactArray"
    description := "Patient with contact information as arrays"
    priority := 35, resourceType := "Patient"
    structurePatterns := ⟨2, true, true, ["phoneNumbers", "emails", "contacts"]⟩
    fieldMappings :=
      [⟨"telecom.array", ["phoneNumbers", "emails", "contacts"], 15, true, "array"⟩] }

def patientEmergencyContact : TemplateMetadata :=
  { name := "PatientEmergencyContact"
    description := "Patient with emergency contact telecom information"
    priority := 36, resourceType := "Patient"
    structurePatterns := ⟨2, false, true, ["emergencyContact", "emergency", "contactPerson"]⟩
    fieldMappings :=
      [⟨"contact.telecom", ["emergencyContact.phone", "emergency.phone", "contactPerson.phone"], 10, true, "string"⟩,
       ⟨"telecom", ["phone", "email"], 8, false, "string"⟩] }

def patientTelecomPriority : TemplateMetadata :=
  { name := "PatientTelecomPriority"
    description := "Patient with prioritized contact methods"
    priority := 37, resourceType := "Patient"
    structurePatterns := ⟨2, false, false, ["primaryPhone", "preferredPhone", "secondaryPhone", "primaryEmail"]⟩
    fieldMappings :=
      [⟨"telecom.priority", ["primaryPhone", "preferredPhone", "secondaryPhone", "primaryEmail", "preferredEmail"], 12, true, "string"⟩,
       ⟨"telecom.rank", ["emergencyPhone"], 8, false, "string"⟩] }

def patientSimpleAddress : TemplateMetadata :=
  { name := "PatientSimpleAddress"
    description := "Patient with simple address format"
    priority := 38, resourceType := "Patient"
    structurePatterns := ⟨2, false, false, ["address", "street", "city", "state", "zip"]⟩
    fieldMappings :=
      [⟨"address.line", ["address", "street", "streetAddress", "addressLine1"], 10, true, "string"⟩,
       ⟨"address.city", ["city", "town"], 8, true, "string"⟩,
       ⟨"address.state", ["state", "province"], 6, false, "string"⟩,
       ⟨"address.postalCode", ["zip", "zipCode", "postalCode"], 6, false, "string"⟩] }

def patientMultipleAddress : TemplateMetadata :=
  { name := "PatientMultipleAddress"
    description := "Patient with multiple addresses"
    priority := 39, resourceType := "Patient"
    structurePatterns := ⟨2, false, true, ["homeAddress", "workAddress", "mailingAddress"]⟩
    fieldMappings :=
      [⟨"address.home", ["homeAddress", "residentialAddress"], 12, true, "object"⟩,
       ⟨"address.work", ["workAddress", "businessAddress"], 10, false, "object"⟩,
       ⟨"address.mailing", ["mailingAddress", "shippingAddress"], 8, false, "object"⟩] }

def patientInternationalAddress : TemplateMetadata :=
  { name := "PatientInternationalAddress"
    description := "Patient with international address format"
    priority := 40, resourceType := "Patient"
    structurePatterns := ⟨2, false, false, ["buildingNumber", "buildingName", "country", "countryCode"]⟩
    fieldMappings :=
      [⟨"address.international", ["buildingNumber", "buildingName", "district", "prefecture"], 10, true, "string"⟩,
       ⟨"address.country", ["country", "countryCode"], 12, true, "string"⟩] }

def patientNestedAddress : TemplateMetadata :=
  { name := "PatientNestedAddress"
    description := "Patient with nested address structures"
    priority := 41, resourceType := "Patient"
    structurePatterns := ⟨3, false, true, ["addressInfo", "personalInfo", "demographics"]⟩
    fieldMappings :=
      [⟨"address.nested", ["addressInfo.street", "personalInfo.address", "demographics.address"], 12, true, "object"⟩] }

def patientAddressArray : TemplateMetadata :=
  { name := "PatientAddressArray"
    description := "Patient with address information as arrays"
    priority := 42, resourceType := "Patient"
    structurePatterns := ⟨2, true, true, ["addresses", "addressList"]⟩
    fieldMappings := [⟨"address.array", ["addresses", "addressList"], 15, true, "array"⟩] }

def patientUSAddress : TemplateMetadata :=
  { name := "PatientUSAddress"
    description := "Patient with US-specific address format"
    priority := 43, resourceType := "Patient"
    structurePatterns := ⟨2, false, false, ["streetNumber", "county", "congressionalDistrict"]⟩
    fieldMappings :=
      [⟨"address.us", ["streetNumber", "county", "congressionalDistrict"], 10, true, "string"⟩] }

def patientPOBox : TemplateMetadata :=
  { name := "PatientPOBox"
    description := "Patient with PO Box address"
    priority := 44, resourceType := "Patient"
    structurePatterns := ⟨2, false, false, ["poBox", "postOfficeBox", "mailbox"]⟩
    fieldMappings :=
      [⟨"address.pobox", ["poBox", "postOfficeBox", "mailbox"], 12, true, "string"⟩,
       ⟨"address.postOffice", ["postOffice"], 5, false, "string"⟩] }

def patientRuralAddress : TemplateMetadata :=
  { name := "PatientRuralAddress"
    description := "Patient with rural address format"
    priority := 45, resourceType := "Patient"
    structurePatterns := ⟨2, false, false, ["ruralRoute", "route", "roadName", "propertyName"]⟩
    fieldMappings :=
      [⟨"address.rural", ["ruralRoute", "route", "roadName", "propertyName", "farmName"], 12, true, "string"⟩,
       ⟨"address.geolocation", ["gpsCoordinates", "latitude", "longitude"], 8, false, "string"⟩] }

def patientTemporaryAddress : TemplateMetadata :=
  { name := "PatientTemporaryAddress"
    description := "Patient with temporary address"
    priority := 46, resourceType := "Patient"
    structurePatterns := ⟨2, false, true, ["temporaryAddress", "currentAddress", "hotelName", "shelterName"]⟩
    fieldMappings :=
      [⟨"address.temporary", ["temporaryAddress", "currentAddress", "hotelName", "shelterName"], 12, true, "string"⟩,
       ⟨"address.period", ["startDate", "endDate", "duration"], 8, false, "string"⟩] }

def patientMilitaryAddress : TemplateMetadata :=
  { name := "PatientMilitaryAddress"
    description := "Patient with military address format"
    priority := 47, resourceType := "Patient"
    structurePatterns := ⟨2, false, false, ["unit", "building", "barracks", "baseName", "apo", "fpo"]⟩
    fieldMappings :=
      [⟨"address.military", ["unit", "building", "barracks", "baseName", "installation"], 12, true, "string"⟩,
       ⟨"address.militaryCode", ["apo", "fpo", "militaryState"], 10, false, "string"⟩,
       ⟨"extension.military", ["branch", "rank", "deployment"], 8, false, "string"⟩] }

def patientValuesetEnhanced : TemplateMetadata :=
  { name := "PatientValuesetEnhanced"
    description := "Patient template with full valueset validation and normalization"
    priority := 48, resourceType := "Patient"
    structurePatterns := ⟨2, false, false, ["nameType", "phoneType", "addressType", "maritalStatus"]⟩
    fieldMappings :=
      [⟨"name.use.valueset", ["nameType", "nameUse"], 8, false, "string"⟩,
       ⟨"telecom.use.valueset", ["phoneType", "emailType", "phoneUse", "emailUse"], 8, false, "string"⟩,
       ⟨"address.use.valueset", ["addressType", "addressUse", "addressCategory"], 8, false, "string"⟩,
       ⟨"gender.valueset", ["gender", "sex"], 6, false, "string"⟩,
       ⟨"maritalStatus.valueset", ["maritalStatus", "marriageStatus"], 6, false, "string"⟩] }

def patientEMS : TemplateMetadata :=
  { name := "PatientEMS"
    description := "Emergency Medical Services patient with case ID and vitals"
    priority := 49, resourceType := "Patient"
    structurePatterns := ⟨3, false, true, ["caseId", "patient", "vitals", "incidentLocation", "transportedTo"]⟩
    fieldMappings :=
      [⟨"identifier.caseId", ["caseId"], 15, true, "string"⟩,
       ⟨"patient.nested", ["patient.sex", "patient.ageEstimate", "patient.unidentified"], 12, true, "object"⟩,
       ⟨"vitals.extension", ["vitals.heartRate", "vitals.respiratoryRate", "vitals.bloodPressure"], 10, false, "object"⟩,
       ⟨"location.incident", ["incidentLocation.lat", "incidentLocation.lng", "incidentLocation.description"], 8, false, "object"⟩,
       ⟨"transport.destination", ["transportedTo"], 6, false, "string"⟩] }

/-- The Patient template registry, in registration (insertion) order of
`PatientTemplateEngine.loadTemplateMetadata`. -/
def patientTemplates : List (String × TemplateMetadata) :=
  [("PatientBasic", patientBasic), ("PatientNested", patientNested),
   ("PatientEHR", patientEHR), ("PatientComplex", patientComplex),
   ("PatientArray", patientArray), ("PatientMinimal", patientMinimal),
   ("PatientResearch", patientResearch), ("PatientMRN", patientMRN),
   ("PatientSSN", patientSSN), ("PatientDriverLicense", patientDriverLicense),
   ("PatientPassport", patientPassport), ("PatientNationalID", patientNationalID),
   ("PatientInsurance", patientInsurance), ("PatientEmployee", patientEmployee),
   ("PatientStudent", patientStudent), ("PatientUUID", patientUUID),
   ("PatientMultipleIDs", patientMultipleIDs), ("PatientSingleName", patientSingleName),
   ("PatientGivenFamily", patientGivenFamily), ("PatientTitledName", patientTitledName),
   ("PatientMultipleNames", patientMultipleNames), ("PatientMaidenName", patientMaidenName),
   ("PatientInternationalName", patientInternationalName), ("PatientNickname", patientNickname),
   ("PatientProfessionalName", patientProfessionalName), ("PatientNestedName", patientNestedName),
   ("PatientEmergencyName", patientEmergencyName), ("PatientPhone", patientPhone),
   ("PatientEmail", patientEmail), ("PatientMultipleContact", patientMultipleContact),
   ("PatientFax", patientFax), ("PatientUrl", patientUrl),
   ("PatientNestedContact", patientNestedContact), ("PatientMobileOnly", patientMobileOnly),
   ("PatientContactArray", patientContactArray), ("PatientEmergencyContact", patientEmergencyContact),
   ("PatientTelecomPriority", patientTelecomPriority), ("PatientSimpleAddress", patientSimpleAddress),
   ("PatientMultipleAddress", patientMultipleAddress), ("PatientInternationalAddress", patientInternationalAddress),
   ("PatientNestedAddress", patientNestedAddress), ("PatientAddressArray", patientAddressArray),
   ("PatientUSAddress", patientUSAddress), ("PatientPOBox", patientPOBox),
   ("PatientRuralAddress", patientRuralAddress), ("PatientTemporaryAddress", patientTemporaryAddress),
   ("PatientMilitaryAddress", patientMilitaryAddress), ("PatientValuesetEnhanced", patientValuesetEnhanced),
   ("PatientEMS", patientEMS)]

/-- The indicator list of `PatientTemplateEngine.canHandle`. -/
def patientIndicators : List String :=
  ["firstName", "first_name", "lastName", "last_name", "givenName", "familyName",
   "name.first", "name.last", "name.given", "name.family",
   "patient.name", "patient.firstName", "patient.lastName",
   "demographics.firstName", "demographics.lastName",
   "patientId", "patient_id", "PatientId", "PATIENT_ID",
   "mrn", "MRN", "medical_record_number", "medicalRecordNumber",
   "patient.id", "patient.patientId",
   "dateOfBirth", "dob", "DOB", "birthDate", "birth_date",
   "gender", "sex", "patient_gender", "patientGender",
   "demographics.dateOfBirth", "demographics.gender",
   "patient", "demographics", "personalDetails"]

/-- `PatientTemplateEngine.canHandle`: accept an explicit Patient tag, else
require at least two case-insensitive indicator substring hits among the
analyzed field paths. -/
def patientCanHandle (json : Json) : Bool :=
  match json with
  | .obj _ | .arr _ =>
    if jsProp json "resourceType" = some (.str "Patient") then true
    else
      let st := analyzeStructure json
      let found := patientIndicators.filter fun indicator =>
        st.allFields.any fun field => strIncludes (strLower field) (strLower indicator)
      2 ≤ found.length
  | _ => false

/-! ### ResourceTypeDetector (backend/src/engines/ResourceTypeDetector.ts) -/

/-- `ResourceDetectionResult`. -/
structure ResourceDetectionResult where
  resourceType : String
  confidence : ℚ
  indicators : List String
  reasoning : String
deriving DecidableEq

/-- The two methods of a registered `BaseTemplateEngine` that
`ResourceTypeDetector` calls. -/
structure EngineModel where
  canHandle : Json → Bool
  scoreTemplates : Json → List TemplateScore

/-- Digits-after-the-point part of `ratToFixed1`, for a non-negative rational:
round half away from zero to one decimal. -/
def ratToFixed1Nonneg (q : ℚ) : String :=
  let n : ℤ := Int.floor (q * 10 + 1 / 2)
  toString (n / 10) ++ "." ++ toString (n % 10)

/-- JS `Number.prototype.toFixed(1)` on the exact rational value (the binary
floating-point representation error is far below the rounding step for the
confidences produced here). -/
def ratToFixed1 (q : ℚ) : String :=
  if q < 0 then "-" ++ ratToFixed1Nonneg (-q) else ratToFixed1Nonneg q

/-- The loop of `detectResourceType` over the registered engines, in
registration order: an engine contributes one result when its `canHandle`
accepts the document and its best template score has positive confidence. -/
def detectFromEngines (engines : List (String × EngineModel)) (json : Json) :
    List ResourceDetectionResult :=
  engines.foldl
    (fun acc rte =>
      if rte.2.canHandle json then
        match rte.2.scoreTemplates json with
        | [] => acc
        | best :: _ =>
          if 0 < best.confidence then
            acc ++ [⟨rte.1, best.confidence, best.«matches».map (·.matched),
              "Template engine for " ++ rte.1 ++ " found " ++
                toString best.«matches».length ++ " field matches with " ++
                ratToFixed1 best.confidence ++ "% confidence"⟩]
          else acc
      else acc)
    []

/-- The engine-polling tail of `detectResourceType`: sort the contributed
results descending by confidence (stable), falling back to a single "Unknown"
result when no engine contributed. -/
def detectViaEngines (engines : List (String × EngineModel)) (json : Json) :
    List ResourceDetectionResult :=
  let results := stableSort (fun a b => b.confidence < a.confidence)
    (detectFromEngines engines json)
  if results.isEmpty then
    [⟨"Unknown", 0, [],
      "No registered template engines can handle this JSON structure"⟩]
  else results

/-- `ResourceTypeDetector.detectResourceType`: defend against non-object input;
shortcut on a truthy string `resourceType` tag; otherwise poll the registered
engines via `detectViaEngines`. -/
def detectResourceType (engines : List (String × EngineModel)) (json : Json) :
    List ResourceDetectionResult :=
  match json with
  | .obj _ | .arr _ =>
    match jsProp json "resourceType" with
    | some (.str s) =>
      if s ≠ "" then
        [⟨s, 100, ["resourceType field"],
          "Explicit FHIR resourceType field found: " ++ s⟩]
      else detectViaEngines engines json
    | _ => detectViaEngines engines json
  | _ => [⟨"Unknown", 0, [], "Invalid or empty JSON data"⟩]

/-- `ResourceTypeDetector.getBestMatch` (`results[0]`, which always exists). -/
def getBestMatch (engines : List (String × EngineModel)) (json : Json) :
    Option ResourceDetectionResult :=
  (detectResourceType engines json).head?

/-- The Patient engine as registered by `ModularTemplateEngine`'s constructor. -/
def patientEngine : EngineModel :=
  ⟨patientCanHandle, scoreTemplates patientTemplates "Patient"⟩

/-- The engine registry built in `ModularTemplateEngine`'s constructor
(`detector.registerEngine('Patient', patientEngine)` is the only call). -/
def registeredEngines : List (String × EngineModel) :=
  [("Patient", patientEngine)]

/-! ### SemanticFieldDetector (backend/src/engines/SemanticFieldDetector.ts)

Every pattern in the source has the shape `/\b(alt|alt|…)\b/i` where each
alternative is a list of lowercase literal pieces joined by `.*`.  A pattern is
represented by its list of alternatives, each a list of literal pieces. -/

/-- JS regex word character (`\w` / `\b` classification): ASCII letter, digit
or underscore. -/
def wordChar (c : Char) : Bool :=
  c.isAlpha || c.isDigit || c = '_'

/-- JS regex `.`: any character except line terminators. -/
def dotChar (c : Char) : Bool :=
  !(c = '\n' || c = '\r' || c.toNat = 0x2028 || c.toNat = 0x2029)

/-- Match a literal piece at the head, returning the rest. -/
def litPrefix : List Char → List Char → Option (List Char)
  | [], s => some s
  | _ :: _, [] => none
  | c :: cs, x :: xs => if x = c then litPrefix cs xs else none

/-- `\b` after the final literal piece: end of input or a non-word character
(every piece ends in a word character). -/
def matchEnd (s : List Char) : Bool :=
  match s with
  | [] => true
  | c :: _ => !wordChar c

/-- The suffixes of `s` reachable by consuming a (possibly empty) `.*` gap:
`s` itself, then each tail as long as the consumed characters match `.`. -/
def tailsWhileDot (s : List Char) : List (List Char) :=
  s :: (match s with
    | [] => []
    | c :: t => if dotChar c then tailsWhileDot t else [])

/-- Match `".*piece₁.*piece₂…"` followed by the closing `\b` (existentially,
which is what `RegExp.prototype.test` decides under backtracking). -/
def searchPieces : List (List Char) → List Char → Bool
  | [], s => matchEnd s
  | p :: ps, s =>
    (tailsWhileDot s).any fun t =>
      match litPrefix p t with
      | some rest => searchPieces ps rest
      | none => false

/-- Match one alternative (its first piece anchored at the current position,
the following pieces after `.*` gaps, then the closing `\b`). -/
def altMatchAt (alt : List (List Char)) (s : List Char) : Bool :=
  match alt with
  | [] => matchEnd s
  | p :: ps =>
    match litPrefix p s with
    | some rest => searchPieces ps rest
    | none => false

/-- Scan every start position; a position qualifies when the preceding
character (if any) is a non-word character, which is the `\b` condition given
that every alternative starts with a word character. -/
def scanTest (alts : List (List (List Char))) : Option Char → List Char → Bool
  | prev, [] =>
    (match prev with | none => true | some c => !wordChar c) &&
      alts.any (altMatchAt · [])
  | prev, c :: t =>
    ((match prev with | none => true | some c => !wordChar c) &&
      alts.any (altMatchAt · (c :: t))) ||
    scanTest alts (some c) t

/-- `pattern.test(fieldName)` for the case-insensitive word-bounded alternation
patterns of `SemanticFieldDetector` (the input is lowercased; the pattern
literals are lowercase). -/
def reTest (alts : List (List String)) (fieldName : String) : Bool :=
  scanTest (alts.map (·.map String.toList)) none (fieldName.toList.map Char.toLower)

/-- One pattern rule: the alternation and the metadata carried by the JS
object literal (absent properties are `none`). -/
structure PatternRule where
  alts : List (List String)
  confidence : ℚ
  system : Option String := none
  use : Option String := none
  component : Option String := none
  code : Option String := none
  type : Option String := none
  category : Option String := none
deriving DecidableEq

def identifierPatterns : List PatternRule :=
  [{ alts := [["id"], ["identifier"], ["case"], ["mrn"], ["ssn"], ["social"],
              ["patient", "id"], ["record", "id"], ["chart", "id"]],
     confidence := 0.9, system := some "medical-record" },
   { alts := [["uuid"], ["guid"]], confidence := 0.95, system := some "uuid" },
   { alts := [["passport"], ["passport", "number"], ["passport", "id"]],
     confidence := 0.95, system := some "passport" },
   { alts := [["driver", "license"], ["dl"], ["license", "number"]],
     confidence := 0.9, system := some "drivers-license" },
   { alts := [["employee", "id"], ["staff", "id"], ["badge", "id"]],
     confidence := 0.85, system := some "employee-id" },
   { alts := [["student", "id"], ["school", "id"], ["university", "id"]],
     confidence := 0.85, system := some "student-id" },
   { alts := [["insurance", "id"], ["policy", "number"], ["member", "id"]],
     confidence := 0.85, system := some "insurance" }]

def namePatterns : List PatternRule :=
  [{ alts := [["name"], ["full", "name"], ["patient", "name"], ["display", "name"]],
     confidence := 0.9, use := some "official" },
   { alts := [["first", "name"], ["given", "name"], ["forename"]],
     confidence := 0.95, component := some "given" },
   { alts := [["last", "name"], ["family", "name"], ["surname"], ["lastname"]],
     confidence := 0.95, component := some "family" },
   { alts := [["middle", "name"], ["middle", "initial"]],
     confidence := 0.9, component := some "middle" },
   { alts := [["nick", "name"], ["alias"], ["preferred", "name"]],
     confidence := 0.85, use := some "nickname" },
   { alts := [["maiden", "name"], ["birth", "name"]],
     confidence := 0.85, use := some "maiden" },
   { alts := [["title"], ["prefix"], ["honorific"]],
     confidence := 0.8, component := some "prefix" },
   { alts := [["suffix"], ["jr"], ["sr"], ["generation"]],
     confidence := 0.8, component := some "suffix" }]

def genderPatterns : List PatternRule :=
  [{ alts := [["gender"], ["sex"], ["sexual", "identity"]], confidence := 0.95 },
   { alts := [["male"], ["female"], ["m"], ["f"], ["man"], ["woman"],
              ["other"], ["unknown"]], confidence := 0.7 }]

def agePatterns : List PatternRule :=
  [{ alts := [["age"], ["age", "estimate"], ["years", "old"]], confidence := 0.9 },
   { alts := [["birth", "date"], ["dob"], ["date", "of", "birth"], ["born"]],
     confidence := 0.95, type := some "birthDate" },
   { alts := [["birth", "year"], ["year", "born"]],
     confidence := 0.85, type := some "birthDate" }]

def contactPatterns : List PatternRule :=
  [{ alts := [["phone"], ["telephone"], ["tel"], ["mobile"], ["cell"],
              ["contact", "number"]], confidence := 0.9, system := some "phone" },
   { alts := [["email"], ["e", "mail"], ["mail"], ["contact", "email"]],
     confidence := 0.95, system := some "email" },
   { alts := [["fax"], ["facsimile"]], confidence := 0.9, system := some "fax" },
   { alts := [["website"], ["url"], ["web", "address"], ["homepage"]],
     confidence := 0.85, system := some "url" },
   { alts := [["home", "phone"], ["home", "number"], ["residential"]],
     confidence := 0.85, system := some "phone", use := some "home" },
   { alts := [["work", "phone"], ["office", "phone"], ["business", "phone"]],
     confidence := 0.85, system := some "phone", use := some "work" },
   { alts := [["emergency", "phone"], ["emergency", "contact"]],
     confidence := 0.8, system := some "phone", use := some "temp" }]

def addressPatterns : List PatternRule :=
  [{ alts := [["address"], ["addr"], ["location"], ["residence"]],
     confidence := 0.9 },
   { alts := [["street"], ["street", "address"], ["address", "line"], ["line1"]],
     confidence := 0.95, component := some "line" },
   { alts := [["city"], ["town"], ["locality"], ["municipality"]],
     confidence := 0.95, component := some "city" },
   { alts := [["state"], ["province"], ["region"], ["county"]],
     confidence := 0.9, component := some "state" },
   { alts := [["zip"], ["zipcode"], ["postal", "code"], ["postcode"]],
     confidence := 0.95, component := some "postalCode" },
   { alts := [["country"], ["nation"], ["country", "code"]],
     confidence := 0.9, component := some "country" },
   { alts := [["home", "address"], ["residential", "address"]],
     confidence := 0.85, use := some "home" },
   { alts := [["work", "address"], ["office", "address"], ["business", "address"]],
     confidence := 0.85, use := some "work" },
   { alts := [["mailing", "address"], ["postal", "address"], ["shipping"]],
     confidence := 0.8, type := some "postal" }]

def clinicalPatterns : List PatternRule :=
  [{ alts := [["vital"], ["vitals"], ["vital", "signs"]],
     confidence := 0.9, category := some "vitals" },
   { alts := [["heart", "rate"], ["hr"], ["pulse"], ["bpm"]],
     confidence := 0.95, code := some "8867-4", system := some "http://loinc.org" },
   { alts := [["blood", "pressure"], ["bp"], ["systolic"], ["diastolic"]],
     confidence := 0.95, code := some "85354-9", system := some "http://loinc.org" },
   { alts := [["temperature"], ["temp"], ["fever"]],
     confidence := 0.9, code := some "8310-5", system := some "http://loinc.org" },
   { alts := [["respiratory", "rate"], ["breathing", "rate"], ["respiration"]],
     confidence := 0.95, code := some "9279-1", system := some "http://loinc.org" },
   { alts := [["oxygen", "saturation"], ["o2", "sat"], ["spo2"]],
     confidence := 0.95, code := some "2708-6", system := some "http://loinc.org" },
   { alts := [["weight"], ["body", "weight"], ["mass"]],
     confidence := 0.9, code := some "29463-7", system := some "http://loinc.org" },
   { alts := [["height"], ["body", "height"], ["stature"]],
     confidence := 0.9, code := some "8302-2", system := some "http://loinc.org" }]

def emergencyPatterns : List PatternRule :=
  [{ alts := [["case", "id"], ["incident", "id"], ["emergency", "id"], ["ems", "id"]],
     confidence := 0.95, category := some "emergency" },
   { alts := [["unidentified"], ["unknown", "patient"], ["anonymous"]],
     confidence := 0.9, category := some "emergency" },
   { alts := [["transport"], ["transported", "to"], ["destination"], ["hospital"]],
     confidence := 0.85, category := some "emergency" },
   { alts := [["location"], ["incident", "location"], ["scene"], ["coordinates"],
              ["lat"], ["lng"], ["latitude"], ["longitude"]],
     confidence := 0.8, category := some "location" }]

/-- `FieldMatch` of SemanticFieldDetector.ts. -/
structure FieldMatch where
  confidence : ℚ
  fhirPath : String
  system : Option String
  valueType : String
  transformer : Option String
  valueMap : Option (List (String × String))
  use : Option String
  component : Option String
  code : Option String
  category : Option String
deriving DecidableEq

/-- `DetectedField` of SemanticFieldDetector.ts. -/
structure DetectedField where
  path : String
  value : Json
  «matches» : List FieldMatch
  bestMatch : FieldMatch
deriving DecidableEq

/-- `SemanticFieldDetector.getValueType` (note JS `typeof null === 'object'`). -/
def getValueType : Json → String
  | .arr _ => "array"
  | .str _ => "string"
  | .num _ => "number"
  | .bool _ => "boolean"
  | .obj _ => "object"
  | .null => "object"

/-- The value literals that earn the gender confidence bonus. -/
def genderBonusLiterals : List String :=
  ["male", "female", "other", "unknown", "m", "f"]

/-- The gender-bonus condition of `testPatterns`: the value is a string and its
lowercasing is one of the recognized literals. -/
def genderValueBonus : Json → Bool
  | .str s => genderBonusLiterals.contains (strLower s)
  | _ => false

/-- `SemanticFieldDetector.generateFhirPath`. -/
def generateFhirPath (category : String) (rule : PatternRule) : String :=
  if category = "identifier" then "identifier[0].value"
  else if category = "name" then
    if rule.component = some "given" then "name[0].given[0]"
    else if rule.component = some "family" then "name[0].family"
    else if rule.component = some "prefix" then "name[0].prefix[0]"
    else if rule.component = some "suffix" then "name[0].suffix[0]"
    else "name[0].text"
  else if category = "gender" then "gender"
  else if category = "age" then
    if rule.type = some "birthDate" then "birthDate"
    else "extension[age].valueInteger"
  else if category = "telecom" then "telecom[0].value"
  else if category = "address" then
    if rule.component = some "line" then "address[0].line[0]"
    else if rule.component = some "city" then "address[0].city"
    else if rule.component = some "state" then "address[0].state"
    else if rule.component = some "postalCode" then "address[0].postalCode"
    else if rule.component = some "country" then "address[0].country"
    else "address[0].text"
  else if category = "clinical" then "extension[vitals].extension[0].valueQuantity.value"
  else if category = "emergency" then "extension[emergency].valueString"
  else "extension[" ++ category ++ "].valueString"

/-- `SemanticFieldDetector.getTransformer` (the rule without a `type` property
also gets the age transformer, since JS `undefined !== 'birthDate'`). -/
def getTransformer (category : String) (rule : PatternRule) : Option String :=
  if category = "gender" then some "normalizeGender"
  else if category = "age" ∧ rule.type ≠ some "birthDate" then
    some "ageToEstimatedBirthDate"
  else none

/-- `SemanticFieldDetector.getValueMap` (the `pattern` argument is unused in
the source as well). -/
def getValueMap (category : String) (_rule : PatternRule) :
    Option (List (String × String)) :=
  if category = "gender" then
    some [("m", "male"), ("male", "male"), ("man", "male"),
          ("f", "female"), ("female", "female"), ("woman", "female"),
          ("o", "other"), ("other", "other"),
          ("u", "unknown"), ("unknown", "unknown"), ("n/a", "unknown")]
  else none

/-- `SemanticFieldDetector.testPatterns`: each rule whose pattern matches the
field name yields one `FieldMatch`; for the gender category a string value that
is a recognized literal adds a flat 0.1 to the rule's base confidence
(unclamped). -/
def testPatterns (fieldName : String) (value : Json) (patterns : List PatternRule)
    (category : String) (valueType : String) : List FieldMatch :=
  patterns.filterMap fun rule =>
    if reTest rule.alts fieldName then
      let bonus : ℚ :=
        if category = "gender" ∧ genderValueBonus value = true then 0.1 else 0
      some
        { confidence := rule.confidence + bonus
          fhirPath := generateFhirPath category rule
          system := rule.system
          valueType := valueType
          transformer := getTransformer category rule
          valueMap := getValueMap category rule
          use := rule.use
          component := rule.component
          code := rule.code
          category := rule.category }
    else none

/-- `SemanticFieldDetector.analyzeField`: test all eight categories in order,
then sort matches descending by confidence (stable).  The `fullPath` argument
of the source is unused there too. -/
def analyzeField (fieldName : String) (value : Json) : List FieldMatch :=
  let vt := getValueType value
  stableSort (fun a b => b.confidence < a.confidence)
    (testPatterns fieldName value identifierPatterns "identifier" vt ++
     testPatterns fieldName value namePatterns "name" vt ++
     testPatterns fieldName value genderPatterns "gender" vt ++
     testPatterns fieldName value agePatterns "age" vt ++
     testPatterns fieldName value contactPatterns "telecom" vt ++
     testPatterns fieldName value addressPatterns "address" vt ++
     testPatterns fieldName value clinicalPatterns "clinical" vt ++
     testPatterns fieldName value emergencyPatterns "emergency" vt)

mutual
/-- `SemanticFieldDetector.traverseObject`, as a pure function returning the
detected fields pushed by the traversal of the subtree, in push order. -/
def travDet : Json → String → List DetectedField
  | .obj fields, currentPath => travDetFields fields currentPath
  | .arr items, currentPath => travDetItems items currentPath 0
  | _, _ => []

/-- Object branch: analyze each key, then recurse into object-like values. -/
def travDetFields : List (String × Json) → String → List DetectedField
  | [], _ => []
  | (key, value) :: rest, currentPath =>
    let fullPath := joinPath currentPath key
    let ms := analyzeField key value
    (match ms with
     | [] => []
     | m :: _ => [⟨fullPath, value, ms, m⟩]) ++
    (if value.objLike then travDet value fullPath else []) ++
    travDetFields rest currentPath

/-- Array branch: recurse into elements of JS `typeof 'object'` (including
`null`, whose traversal yields nothing); analyze primitive elements under the
parent field name. -/
def travDetItems : List Json → String → Nat → List DetectedField
  | [], _, _ => []
  | item :: rest, currentPath, i =>
    let idxPath := currentPath ++ "[" ++ toString i ++ "]"
    (if item.objLike || item = .null then travDet item idxPath
     else
       let fieldName := ((strSplitOnDot currentPath).getLast?).getD ""
       let ms := analyzeField fieldName item
       match ms with
       | [] => []
       | m :: _ => [⟨idxPath, item, ms, m⟩]) ++
    travDetItems rest currentPath (i + 1)
end

/-- One step of `SemanticFieldDetector.consolidateFields`' object insertion:
a new path is appended; an existing path is replaced in place only when the
new best-match confidence is strictly higher. -/
def insertConsolidated (acc : List DetectedField) (f : DetectedField) :
    List DetectedField :=
  match acc with
  | [] => [f]
  | g :: gs =>
    if g.path = f.path then
      if g.bestMatch.confidence < f.bestMatch.confidence then f :: gs else g :: gs
    else g :: insertConsolidated gs f

/-- `SemanticFieldDetector.consolidateFields`: keep one `DetectedField` per
source path, the strictly-higher-confidence one winning, earliest-path
insertion order preserved (JS object key order / `Object.values`). -/
def consolidateFields (detected : List DetectedField) : List DetectedField :=
  detected.foldl insertConsolidated []

/-- `SemanticFieldDetector.detectFields`. -/
def detectFields (json : Json) (basePath : String) : List DetectedField :=
  consolidateFields (travDet json basePath)

/-! ### IntelligentTemplateGenerator (backend/dist/engines/IntelligentTemplateGenerator.js)

The rendered Liquid template text (`createLiquidTemplate`,
`generateFhirPassthroughTemplate`) is pure string construction with no effect
on any control flow or number below, so it is not reproduced here; where a
function of this section needs to carry it, it takes the rendered text as a
parameter. -/

/-- `IntelligentTemplateGenerator.isFhirStructured`: an explicit Patient tag,
or a non-empty array under a FHIR-like field whose first element has JS
`typeof 'object'` (which includes `null`). -/
def isFhirStructured (json : Json) : Bool :=
  jsProp json "resourceType" = some (.str "Patient") ||
  ["name", "identifier", "telecom", "address", "contact"].any fun field =>
    match jsProp json field with
    | some (.arr (first :: _)) => first.objLike || first = .null
    | _ => false

/-- One identifier entry of the synthesis `context`. -/
structure CtxIdentifier where
  path : String
  system : String
  value : Json
deriving DecidableEq

/-- The `context.name` slots (JS assigns at most one path per slot, the last
assignment winning). -/
structure CtxName where
  given : Option String := none
  family : Option String := none
  prefixSlot : Option String := none
  suffixSlot : Option String := none
  text : Option String := none
deriving DecidableEq

/-- `context.demographics.gender`. -/
structure CtxGender where
  path : String
  valueMap : Option (List (String × String))
deriving DecidableEq

/-- One `context.telecom` entry. -/
structure CtxTelecom where
  path : String
  system : String
  use : String
deriving DecidableEq

/-- One `context.address` entry. -/
structure CtxAddress where
  path : String
  component : String
  use : String
deriving DecidableEq

/-- One `context.clinical` entry. -/
structure CtxClinical where
  path : String
  code : Option String
  system : Option String
  category : String
deriving DecidableEq

/-- One `context.emergency` entry. -/
structure CtxEmergency where
  path : String
  category : String
deriving DecidableEq

/-- One `context.extensions` entry. -/
structure CtxExtension where
  path : String
  url : String
  valueType : String
deriving DecidableEq

/-- The synthesis mapping context built by
`IntelligentTemplateGenerator.buildTemplateContext`. -/
structure TemplateContext where
  identifiers : List CtxIdentifier := []
  name : CtxName := {}
  gender : Option CtxGender := none
  birthDate : Option String := none
  age : Option String := none
  telecom : List CtxTelecom := []
  address : List CtxAddress := []
  extensions : List CtxExtension := []
  clinical : List CtxClinical := []
  emergency : List CtxEmergency := []
deriving DecidableEq

/-- JS `str.replace(/\./g, '-')`. -/
def dotsToDashes (s : String) : String :=
  String.mk (s.toList.map fun c => if c = '.' then '-' else c)

/-- The per-field body of `buildTemplateContext`'s loop: skip best matches
below 0.6, then dispatch on the target FHIR path. -/
def buildContextStep (ctx : TemplateContext) (field : DetectedField) :
    TemplateContext :=
  let m := field.bestMatch
  if m.confidence < 0.6 then ctx
  else if strStartsWith m.fhirPath "identifier" then
    { ctx with identifiers := ctx.identifiers ++
        [⟨field.path, m.system.getD "unknown", field.value⟩] }
  else if strStartsWith m.fhirPath "name" then
    if strIncludes m.fhirPath "given" then
      { ctx with name := { ctx.name with given := some field.path } }
    else if strIncludes m.fhirPath "family" then
      { ctx with name := { ctx.name with family := some field.path } }
    else if strIncludes m.fhirPath "prefix" then
      { ctx with name := { ctx.name with prefixSlot := some field.path } }
    else if strIncludes m.fhirPath "suffix" then
      { ctx with name := { ctx.name with suffixSlot := some field.path } }
    else
      { ctx with name := { ctx.name with text := some field.path } }
  else if m.fhirPath = "gender" then
    { ctx with gender := some ⟨field.path, m.valueMap⟩ }
  else if m.fhirPath = "birthDate" then
    { ctx with birthDate := some field.path }
  else if strIncludes m.fhirPath "age" then
    { ctx with age := some field.path }
  else if strStartsWith m.fhirPath "telecom" then
    { ctx with telecom := ctx.telecom ++
        [⟨field.path, m.system.getD "phone", m.use.getD "home"⟩] }
  else if strStartsWith m.fhirPath "address" then
    let component :=
      if strIncludes m.fhirPath "line" then "line"
      else if strIncludes m.fhirPath "city" then "city"
      else if strIncludes m.fhirPath "state" then "state"
      else if strIncludes m.fhirPath "postalCode" then "postalCode"
      else if strIncludes m.fhirPath "country" then "country"
      else "text"
    { ctx with address := ctx.address ++
        [⟨field.path, component, m.use.getD "home"⟩] }
  else if strStartsWith m.fhirPath "extension[vitals]" then
    { ctx with clinical := ctx.clinical ++
        [⟨field.path, m.code, m.system, "vitals"⟩] }
  else if strStartsWith m.fhirPath "extension[emergency]" then
    { ctx with emergency := ctx.emergency ++ [⟨field.path, "emergency"⟩] }
  else
    { ctx with extensions := ctx.extensions ++
        [⟨field.path, "http://example.org/fhir/extension/" ++ dotsToDashes field.path,
          m.valueType⟩] }

/-- `IntelligentTemplateGenerator.buildTemplateContext`. -/
def buildTemplateContext (detectedFields : List DetectedField) : TemplateContext :=
  detectedFields.foldl buildContextStep {}

/-- One `analysis.fieldBreakdown` entry. -/
structure Breakdown where
  path : String
  confidence : ℚ
  fhirPath : String
deriving DecidableEq

/-- The `analysis.context` value, which in the source is either the synthesis
context or the ad-hoc `{ type: 'FHIR-Structured', resourceType: … }` object of
the passthrough branch. -/
inductive AnalysisContext where
  | fhirStructured (resourceType : Option Json)
  | synthesized (ctx : TemplateContext)
deriving DecidableEq

/-- The `analysis` record of `analyzeAndGenerate`. -/
structure GenAnalysis where
  detectedFields : Nat
  context : AnalysisContext
  fieldBreakdown : List Breakdown
  isFhirStructured : Bool
deriving DecidableEq

/-- The result of `analyzeAndGenerate` (minus the rendered template text,
see the section comment). -/
structure GenResult where
  analysis : GenAnalysis
  confidence : ℚ
deriving DecidableEq

/-- `IntelligentTemplateGenerator.analyzeAndGenerate`: fixed confidence 0.95 in
the FHIR-passthrough branch; otherwise the arithmetic mean of the detected
fields' best-match confidences (0 when none were detected). -/
def analyzeAndGenerate (sampleJson : Json) : GenResult :=
  if isFhirStructured sampleJson then
    ⟨⟨0, .fhirStructured (jsProp sampleJson "resourceType"), [], true⟩, 0.95⟩
  else
    let detectedFields := detectFields sampleJson ""
    let totalConfidence :=
      detectedFields.foldl (fun sum f => sum + f.bestMatch.confidence) 0
    let averageConfidence :=
      if detectedFields.length > 0 then
        totalConfidence / (detectedFields.length : ℚ)
      else 0
    ⟨⟨detectedFields.length,
      .synthesized (buildTemplateContext detectedFields),
      detectedFields.map fun f => ⟨f.path, f.bestMatch.confidence, f.bestMatch.fhirPath⟩,
      false⟩,
      averageConfidence⟩

/-! ### IntelligentTemplateService (backend/dist/services/IntelligentTemplateService.js) -/

/-- The `analysis` attached to a conversion result: `{ cached: true }` for a
cache hit, the generator's analysis otherwise (the catch-all error branch
attaches `{}`; that branch only fires on filesystem/converter errors, which
are outside this model). -/
inductive ServiceAnalysis where
  | cached
  | generated (a : GenAnalysis)
deriving DecidableEq

/-- The result object of `processIntelligentConversion` (`fhirOutput`, which
comes from the external converter executable, is not modelled). -/
structure ConversionResult where
  success : Bool
  template : String
  analysis : ServiceAnalysis
  confidence : ℚ
  generatedTemplateName : String
  error : Option String
deriving DecidableEq

/-- `IntelligentTemplateService.processIntelligentConversion`, as a total
function of the cache lookup for the input's hash (`cacheHit`), the hash
prefix used in generated template names, the generator result for the input,
and the rendered template text.  A cache hit returns the cached template with
confidence 1.0; a fresh input whose generator confidence is below 0.5 returns
an explicit failure result (no exception) with the generator's analysis
attached; otherwise the rendered template is saved, cached, test-converted and
returned as a success. -/
def processIntelligentConversion (cacheHit : Option String) (hashPrefix : String)
    (gen : GenResult) (rendered : String) : ConversionResult :=
  match cacheHit with
  | some cachedTemplate =>
    ⟨true, cachedTemplate, .cached, 1, "IntelligentTemplate_" ++ hashPrefix, none⟩
  | none =>
    if gen.confidence < 0.5 then
      ⟨false, "", .generated gen.analysis, gen.confidence, "",
        some "Low confidence in field detection. Manual template may be required."⟩
    else
      ⟨true, rendered, .generated gen.analysis, gen.confidence,
        "IntelligentTemplate_" ++ hashPrefix, none⟩

/-! ## Theorems

### Scoring: closed form and bounds (claims C1 and C7) -/

/-- Specification-side closed form (from §4.3 of the spec): the summed weight
of the mappings whose patterns, tried in order, find a present value. -/
def spec_matchedWeightSum (json : Json) (ms : List FieldMapping) : ℚ :=
  ((ms.filter fun m => (findFieldValue json m.jsonPatterns).isSome).map
    (·.weight)).sum

/-- Specification-side closed form: the summed weight of the required mappings
with no present value. -/
def spec_missedRequiredWeightSum (json : Json) (ms : List FieldMapping) : ℚ :=
  ((ms.filter fun m => (findFieldValue json m.jsonPatterns).isNone && m.required).map
    (·.weight)).sum

/-- Specification-side closed form: the summed weight of all mappings,
matched or not. -/
def spec_totalWeightSum (ms : List FieldMapping) : ℚ :=
  (ms.map (·.weight)).sum

theorem scoreFold_totalScore (json : Json) (ms : List FieldMapping) (acc : ScoreAcc) :
    (ms.foldl (scoreMappingStep json) acc).totalScore
      = acc.totalScore + spec_matchedWeightSum json ms
        - 2 * spec_missedRequiredWeightSum json ms := by
  induction ms generalizing acc with
  | nil =>
    simp [spec_matchedWeightSum, spec_missedRequiredWeightSum]
  | cons m rest ih =>
    rw [List.foldl_cons, ih]
    cases h : findFieldValue json m.jsonPatterns with
    | some v =>
      simp [scoreMappingStep, h, spec_matchedWeightSum, spec_missedRequiredWeightSum]
      ring
    | none =>
      cases hr : m.required with
      | true =>
        simp [scoreMappingStep, h, hr, spec_matchedWeightSum,
          spec_missedRequiredWeightSum]
        ring
      | false =>
        simp [scoreMappingStep, h, hr, spec_matchedWeightSum,
          spec_missedRequiredWeightSum]

theorem scoreFold_maxPossible (json : Json) (ms : List FieldMapping) (acc : ScoreAcc) :
    (ms.foldl (scoreMappingStep json) acc).maxPossibleScore
      = acc.maxPossibleScore + spec_totalWeightSum ms := by
  induction ms generalizing acc with
  | nil => simp [spec_totalWeightSum]
  | cons m rest ih =>
    rw [List.foldl_cons, ih]
    cases h : findFieldValue json m.jsonPatterns with
    | some v => simp [scoreMappingStep, h, spec_totalWeightSum]; ring
    | none =>
      cases hr : m.required with
      | true => simp [scoreMappingStep, h, hr, spec_totalWeightSum]; ring
      | false => simp [scoreMappingStep, h, hr, spec_totalWeightSum]; ring

theorem structureScore_nonneg (st : StructureAnalysis) (sp : StructurePatterns) :
    0 ≤ structureScore st sp := by
  unfold structureScore
  have h4 : (0 : ℚ) ≤
      (((sp.expectedFields.filter fun field =>
          st.allFields.any fun f => strIncludes f field).length : ℚ) /
        (sp.expectedFields.length : ℚ)) * 5 := by
    apply mul_nonneg _ (by norm_num)
    exact div_nonneg (Nat.cast_nonneg _) (Nat.cast_nonneg _)
  split_ifs <;> linarith

theorem structureScore_le_twenty (st : StructureAnalysis) (sp : StructurePatterns) :
    structureScore st sp ≤ 20 := by
  unfold structureScore
  have h4 : (((sp.expectedFields.filter fun field =>
          st.allFields.any fun f => strIncludes f field).length : ℚ) /
        (sp.expectedFields.length : ℚ)) * 5 ≤ 5 := by
    rcases Nat.eq_zero_or_pos sp.expectedFields.length with h | h
    · rw [h]
      norm_num
    · have hle : ((sp.expectedFields.filter fun field =>
            st.allFields.any fun f => strIncludes f field).length : ℚ) ≤
          (sp.expectedFields.length : ℚ) := by
        exact_mod_cast List.length_filter_le _ _
      have hpos : (0 : ℚ) < (sp.expectedFields.length : ℚ) := by exact_mod_cast h
      have : ((sp.expectedFields.filter fun field =>
            st.allFields.any fun f => strIncludes f field).length : ℚ) /
          (sp.expectedFields.length : ℚ) ≤ 1 := by
        rw [div_le_one hpos]
        exact hle
      linarith
  split_ifs <;> linarith

/-- Claim C1: for every registered template and every JSON document,
`scoreTemplates` scores the template as the structural subscore (which lies
between 0 and 20) plus the weight of every mapping with a present value, minus
twice the weight of every required mapping without one; the denominator is 20
plus the sum of all mapping weights, and the confidence is
`clamp(score / maxPossibleScore × 100, 0, 100)`; that score record is an
element of the `scoreTemplates` output. -/
theorem scoreTemplates_closed_formula (name : String) (t : TemplateMetadata)
    (hreg : (name, t) ∈ patientTemplates) (json : Json) :
    (scoreOne "Patient" json (analyzeStructure json) name t).score
      = structureScore (analyzeStructure json) t.structurePatterns
        + spec_matchedWeightSum json t.fieldMappings
        - 2 * spec_missedRequiredWeightSum json t.fieldMappings
    ∧ 0 ≤ structureScore (analyzeStructure json) t.structurePatterns
    ∧ structureScore (analyzeStructure json) t.structurePatterns ≤ 20
    ∧ (scoreOne "Patient" json (analyzeStructure json) name t).confidence
      = max 0 (min 100
          ((scoreOne "Patient" json (analyzeStructure json) name t).score
            / (20 + spec_totalWeightSum t.fieldMappings) * 100))
    ∧ (scoreOne "Patient" json (analyzeStructure json) name t)
        ∈ scoreTemplates patientTemplates "Patient" json := by
  refine ⟨?_, structureScore_nonneg _ _, structureScore_le_twenty _ _, ?_, ?_⟩
  · simp only [scoreOne]
    rw [scoreFold_totalScore]
  · simp only [scoreOne]
    rw [scoreFold_totalScore, scoreFold_maxPossible]
  · unfold scoreTemplates
    rw [mem_stableSort]
    exact List.mem_map.mpr ⟨(name, t), hreg, rfl⟩

theorem scoreTemplates_closed_formula_witness :
    (("PatientBasic", patientBasic) ∈ patientTemplates)
    ∧ ((scoreOne "Patient" (.obj []) (analyzeStructure (.obj [])) "PatientBasic"
          patientBasic).score
        = structureScore (analyzeStructure (.obj [])) patientBasic.structurePatterns
          + spec_matchedWeightSum (.obj []) patientBasic.fieldMappings
          - 2 * spec_missedRequiredWeightSum (.obj []) patientBasic.fieldMappings
      ∧ 0 ≤ structureScore (analyzeStructure (.obj [])) patientBasic.structurePatterns
      ∧ structureScore (analyzeStructure (.obj [])) patientBasic.structurePatterns ≤ 20
      ∧ (scoreOne "Patient" (.obj []) (analyzeStructure (.obj [])) "PatientBasic"
          patientBasic).confidence
        = max 0 (min 100
            ((scoreOne "Patient" (.obj []) (analyzeStructure (.obj [])) "PatientBasic"
                patientBasic).score
              / (20 + spec_totalWeightSum patientBasic.fieldMappings) * 100))
      ∧ (scoreOne "Patient" (.obj []) (analyzeStructure (.obj [])) "PatientBasic"
          patientBasic)
          ∈ scoreTemplates patientTemplates "Patient" (.obj [])) :=
  ⟨by decide, scoreTemplates_closed_formula "PatientBasic" patientBasic (by decide)
    (.obj [])⟩

/-- Claim C7: for every template with non-negative mapping weights and every
document, the clamped confidence lies in [0, 100] and the denominator
`maxPossibleScore` is at least the structural weight 20 — in particular never
zero, even when no field mapping matches. -/
theorem templateScore_confidence_bounds (rt name : String) (t : TemplateMetadata)
    (json : Json) (hw : ∀ m ∈ t.fieldMappings, 0 ≤ m.weight) :
    0 ≤ (scoreOne rt json (analyzeStructure json) name t).confidence
    ∧ (scoreOne rt json (analyzeStructure json) name t).confidence ≤ 100
    ∧ 20 ≤ (t.fieldMappings.foldl (scoreMappingStep json)
        ⟨structureScore (analyzeStructure json) t.structurePatterns, 20, [], []⟩).maxPossibleScore := by
  refine ⟨le_max_left _ _, ?_, ?_⟩
  · unfold scoreOne
    exact max_le (by norm_num) (le_trans (min_le_left _ _) (le_refl _))
  · rw [scoreFold_maxPossible]
    show (20 : ℚ) ≤ 20 + spec_totalWeightSum t.fieldMappings
    have : 0 ≤ spec_totalWeightSum t.fieldMappings := by
      unfold spec_totalWeightSum
      apply List.sum_nonneg
      intro x hx
      obtain ⟨m, hm, rfl⟩ := List.mem_map.mp hx
      exact hw m hm
    linarith

theorem templateScore_confidence_bounds_witness :
    (∀ m ∈ patientBasic.fieldMappings, 0 ≤ m.weight)
    ∧ (0 ≤ (scoreOne "Patient" (.obj []) (analyzeStructure (.obj [])) "PatientBasic"
          patientBasic).confidence
      ∧ (scoreOne "Patient" (.obj []) (analyzeStructure (.obj [])) "PatientBasic"
          patientBasic).confidence ≤ 100
      ∧ 20 ≤ (patientBasic.fieldMappings.foldl (scoreMappingStep (.obj []))
          ⟨structureScore (analyzeStructure (.obj [])) patientBasic.structurePatterns,
            20, [], []⟩).maxPossibleScore) :=
  ⟨by decide, templateScore_confidence_bounds "Patient" "PatientBasic" patientBasic
    (.obj []) (by decide)⟩

/-! ### Resource type detection (claims C3 and C10) -/

unseal Rat.add Rat.mul Rat.sub Rat.inv Rat.ofScientific in
/-- Claim C3, counterexample: on the spec's own Scenario A document the single
returned indicator is the literal `"resourceType field"`, not
`"explicit type field"`; and the empty string is a string-valued tag for which
the shortcut does not fire at all (JS truthiness), the detector returning the
Unknown fallback instead. -/
theorem detect_explicit_indicator_cex :
    ((detectResourceType registeredEngines
        (.obj [("resourceType", .str "Patient"), ("id", .str "123")])).map
        (·.indicators) = [["resourceType field"]])
    ∧ (["resourceType field"] ≠ ["explicit type field"])
    ∧ (detectResourceType registeredEngines (.obj [("resourceType", .str "")])
        = [⟨"Unknown", 0, [],
            "No registered template engines can handle this JSON structure"⟩]) := by
  refine ⟨by decide, by decide, by decide⟩

/-- Claim C3 as amended: when the document (an object or array) carries a
*non-empty* string `resourceType` tag, `detectResourceType` returns exactly one
result carrying that resource type, confidence 100 and the indicator
`"resourceType field"`, independently of the registered engines (none of their
scorers is consulted). -/
theorem detect_explicit_type_shortcut (engines : List (String × EngineModel))
    (json : Json) (s : String) (hobj : json.objLike = true)
    (htag : jsProp json "resourceType" = some (.str s)) (hne : s ≠ "") :
    detectResourceType engines json
      = [⟨s, 100, ["resourceType field"],
          "Explicit FHIR resourceType field found: " ++ s⟩] := by
  cases json with
  | obj fields => simp [detectResourceType, htag, hne]
  | arr elems => simp [detectResourceType, htag, hne]
  | null => simp [Json.objLike] at hobj
  | bool b => simp [Json.objLike] at hobj
  | num q => simp [Json.objLike] at hobj
  | str t => simp [Json.objLike] at hobj

theorem detect_explicit_type_shortcut_witness :
    ((Json.obj [("resourceType", .str "Patient"), ("id", .str "123")]).objLike = true)
    ∧ (jsProp (.obj [("resourceType", .str "Patient"), ("id", .str "123")])
        "resourceType" = some (.str "Patient"))
    ∧ ("Patient" ≠ "")
    ∧ (detectResourceType registeredEngines
        (.obj [("resourceType", .str "Patient"), ("id", .str "123")])
        = [⟨"Patient", 100, ["resourceType field"],
            "Explicit FHIR resourceType field found: Patient"⟩]) :=
  ⟨by decide, by decide, by decide,
    detect_explicit_type_shortcut registeredEngines
      (.obj [("resourceType", .str "Patient"), ("id", .str "123")]) "Patient"
      (by decide) (by decide) (by decide)⟩

/-! ### Scoring the empty document (claim C4) -/

unseal Rat.add Rat.mul Rat.sub Rat.inv Rat.ofScientific in
/-- Claim C4, counterexample: on the empty document the *top-ranked* template,
`PatientValuesetEnhanced` (the one registered template with no required
mapping), keeps its full structural score of 15 and gets confidence
15/56 × 100 = 375/14 ≈ 26.8, which does not clamp to 0. -/
theorem empty_doc_confidence_cex :
    ((scoreTemplates patientTemplates "Patient" (.obj [])).head?.map
        (fun s => (s.templateName, s.confidence))
      = some ("PatientValuesetEnhanced", 375 / 14))
    ∧ ((375 : ℚ) / 14 ≠ 0) := by
  refine ⟨by decide, by decide⟩

unseal Rat.add Rat.mul Rat.sub Rat.inv Rat.ofScientific in
/-- Claim C4 as amended: on the empty document every registered template
*except* `PatientValuesetEnhanced` has confidence 0 (each has at least one
required mapping, and the ×2 penalty drives its score negative), while
`PatientValuesetEnhanced` scores 15 with confidence 375/14; the selected
recommendation is nevertheless the "very low confidence" message, since
375/14 < 40. -/
theorem empty_doc_selection :
    ((scoreTemplates patientTemplates "Patient" (.obj [])).all fun s =>
      s.templateName == "PatientValuesetEnhanced" || decide (s.confidence = 0)) = true
    ∧ ((scoreTemplates patientTemplates "Patient" (.obj [])).head?.map (·.score)
        = some 15)
    ∧ ((selectBestTemplate patientTemplates "Patient" (.obj [])).map
        (·.recommendation)
      = some "Very low confidence. Consider creating a custom template or check data format.") := by
  refine ⟨by decide, by decide, by decide⟩

/-! ### Low-confidence synthesis failure (claim C9) -/

/-- Claim C9: whenever the generator's mean confidence for a fresh (uncached)
input falls below 0.5, `processIntelligentConversion` returns — it does not
throw — an explicit failure: `success = false`, empty template and template
name, the computed confidence, the explanatory error string, and the partial
analysis record attached unchanged. -/
theorem lowConfidence_failure_result (json : Json) (hashPrefix rendered : String)
    (hlow : (analyzeAndGenerate json).confidence < 0.5) :
    processIntelligentConversion none hashPrefix (analyzeAndGenerate json) rendered
      = ⟨false, "", .generated (analyzeAndGenerate json).analysis,
          (analyzeAndGenerate json).confidence, "",
          some "Low confidence in field detection. Manual template may be required."⟩ := by
  simp [processIntelligentConversion, hlow]

unseal Rat.add Rat.mul Rat.sub Rat.inv Rat.ofScientific in
theorem lowConfidence_failure_result_witness :
    ((analyzeAndGenerate (.obj [])).confidence < 0.5)
    ∧ (processIntelligentConversion none "abc12345" (analyzeAndGenerate (.obj []))
        "rendered-template"
      = ⟨false, "", .generated (analyzeAndGenerate (.obj [])).analysis,
          (analyzeAndGenerate (.obj [])).confidence, "",
          some "Low confidence in field detection. Manual template may be required."⟩) :=
  ⟨by decide, lowConfidence_failure_result (.obj []) "abc12345" "rendered-template"
    (by decide)⟩

/-! ### Detector totality and positivity (claim C10) -/

theorem detectFromEngines_pos (json : Json) :
    ∀ (engines : List (String × EngineModel)) (acc : List ResourceDetectionResult),
      (∀ r ∈ acc, 0 < r.confidence) →
      ∀ r ∈ engines.foldl
        (fun acc rte =>
          if rte.2.canHandle json then
            match rte.2.scoreTemplates json with
            | [] => acc
            | best :: _ =>
              if 0 < best.confidence then
                acc ++ [⟨rte.1, best.confidence, best.«matches».map (·.matched),
                  "Template engine for " ++ rte.1 ++ " found " ++
                    toString best.«matches».length ++ " field matches with " ++
                    ratToFixed1 best.confidence ++ "% confidence"⟩]
              else acc
          else acc) acc,
      0 < r.confidence := by
  intro engines
  induction engines with
  | nil => intro acc hacc r hr; exact hacc r hr
  | cons e rest ih =>
    intro acc hacc r hr
    rw [List.foldl_cons] at hr
    refine ih _ ?_ r hr
    intro x hx
    by_cases hch : e.2.canHandle json = true
    · simp only [hch, if_true] at hx
      cases hsc : e.2.scoreTemplates json with
      | nil => rw [hsc] at hx; exact hacc x hx
      | cons best tail =>
        rw [hsc] at hx
        by_cases hc : 0 < best.confidence
        · simp only [hc, if_true] at hx
          rcases List.mem_append.mp hx with h | h
          · exact hacc x h
          · rcases List.mem_singleton.mp h with rfl
            exact hc
        · simp only [hc, if_false] at hx
          exact hacc x hx
    · simp only [Bool.not_eq_true] at hch
      simp only [hch, Bool.false_eq_true, if_false] at hx
      exact hacc x hx

theorem detectViaEngines_props (engines : List (String × EngineModel)) (json : Json) :
    detectViaEngines engines json ≠ []
    ∧ ∀ r ∈ detectViaEngines engines json,
        r.resourceType ≠ "Unknown" → 0 < r.confidence := by
  unfold detectViaEngines
  by_cases he : (stableSort (fun a b => b.confidence < a.confidence)
      (detectFromEngines engines json)).isEmpty = true
  · simp only [he, if_true]
    refine ⟨by simp, ?_⟩
    intro r hr hne
    rcases List.mem_singleton.mp hr with rfl
    simp at hne
  · simp only [he, Bool.false_eq_true, if_false]
    refine ⟨by simpa [List.isEmpty_iff] using he, ?_⟩
    intro r hr _
    rw [mem_stableSort] at hr
    exact detectFromEngines_pos json engines [] (by simp) r hr

theorem detectResourceType_cases (engines : List (String × EngineModel))
    (json : Json) :
    detectResourceType engines json
        = [⟨"Unknown", 0, [], "Invalid or empty JSON data"⟩]
    ∨ (∃ s, detectResourceType engines json
        = [⟨s, 100, ["resourceType field"],
            "Explicit FHIR resourceType field found: " ++ s⟩])
    ∨ detectResourceType engines json = detectViaEngines engines json := by
  cases json with
  | obj fields =>
    cases h : jsProp (.obj fields) "resourceType" with
    | none => right; right; simp [detectResourceType, h]
    | some v =>
      cases v with
      | str s =>
        by_cases hs : s = ""
        · right; right; simp [detectResourceType, h, hs]
        · right; left; exact ⟨s, by simp [detectResourceType, h, hs]⟩
      | null => right; right; simp [detectResourceType, h]
      | bool b => right; right; simp [detectResourceType, h]
      | num q => right; right; simp [detectResourceType, h]
      | arr l => right; right; simp [detectResourceType, h]
      | obj fs => right; right; simp [detectResourceType, h]
  | arr elems =>
    cases h : jsProp (.arr elems) "resourceType" with
    | none => right; right; simp [detectResourceType, h]
    | some v =>
      cases v with
      | str s =>
        by_cases hs : s = ""
        · right; right; simp [detectResourceType, h, hs]
        · right; left; exact ⟨s, by simp [detectResourceType, h, hs]⟩
      | null => right; right; simp [detectResourceType, h]
      | bool b => right; right; simp [detectResourceType, h]
      | num q => right; right; simp [detectResourceType, h]
      | arr l => right; right; simp [detectResourceType, h]
      | obj fs => right; right; simp [detectResourceType, h]
  | null => left; rfl
  | bool b => left; rfl
  | num q => left; rfl
  | str s => left; rfl

/-- Claim C10: `detectResourceType` always returns a non-empty list (so
`getBestMatch` is always defined), and every returned result whose resource
type is not "Unknown" has strictly positive confidence — an engine whose best
template confidence is 0 contributes nothing, and when nothing contributes the
single fallback result is "Unknown" with confidence 0. -/
theorem detect_nonempty_and_positive (engines : List (String × EngineModel))
    (json : Json) :
    detectResourceType engines json ≠ []
    ∧ (getBestMatch engines json).isSome = true
    ∧ ∀ r ∈ detectResourceType engines json,
        r.resourceType ≠ "Unknown" → 0 < r.confidence := by
  have main : detectResourceType engines json ≠ []
      ∧ ∀ r ∈ detectResourceType engines json,
          r.resourceType ≠ "Unknown" → 0 < r.confidence := by
    rcases detectResourceType_cases engines json with h | ⟨s, h⟩ | h
    · rw [h]
      refine ⟨by simp, ?_⟩
      intro r hr hne
      rcases List.mem_singleton.mp hr with rfl
      simp at hne
    · rw [h]
      refine ⟨by simp, ?_⟩
      intro r hr _
      rcases List.mem_singleton.mp hr with rfl
      norm_num
    · rw [h]
      exact detectViaEngines_props engines json
  refine ⟨main.1, ?_, main.2⟩
  unfold getBestMatch
  cases hd : detectResourceType engines json with
  | nil => exact absurd hd main.1
  | cons a l => simp [List.head?]

/-! ### Gender bonus confidence (claim C5) -/

unseal Rat.add Rat.mul Rat.sub Rat.inv Rat.ofScientific in
/-- Claim C5, counterexample: for the field `"gender"` with value `"male"`,
the matching 0.95-rule's resulting confidence is 0.95 + 0.1 = 21/20, which
exceeds 1 (no clamping happens); and for the field `"sex"` with value
`"woman"` — one of the spec's example "recognized gender literals" — *no*
bonus is added: the resulting confidence is the bare base 19/20, not
19/20 + 1/10. -/
theorem gender_bonus_cex :
    ((testPatterns "gender" (.str "male") genderPatterns "gender" "string").map
        (·.confidence) = [21 / 20])
    ∧ ¬ ((21 : ℚ) / 20 ≤ 1)
    ∧ ((testPatterns "sex" (.str "woman") genderPatterns "gender" "string").map
        (·.confidence) = [19 / 20])
    ∧ ((19 : ℚ) / 20 ≠ 19 / 20 + 1 / 10) := by
  refine ⟨by decide, by decide, by decide, by decide⟩

/-- Claim C5 as amended: whenever a gender-category pattern rule matches a
field name, the resulting `FieldMatch` confidence is the rule's base
confidence plus a fixed 0.1 bonus exactly when the string value's lowercasing
is in the code's literal list {male, female, other, unknown, m, f} (so
"woman", though an example in the spec, earns no bonus), with no bonus
otherwise; the result is unclamped and can reach 21/20, its actual upper
bound. -/
theorem gender_match_confidence (fieldName : String) (value : Json) (vt : String)
    (m : FieldMatch)
    (hm : m ∈ testPatterns fieldName value genderPatterns "gender" vt) :
    (∃ rule ∈ genderPatterns, reTest rule.alts fieldName = true ∧
      m.confidence = rule.confidence +
        (if genderValueBonus value = true then 1 / 10 else 0))
    ∧ m.confidence ≤ 21 / 20 := by
  unfold testPatterns at hm
  rw [List.mem_filterMap] at hm
  obtain ⟨rule, hrule, heq⟩ := hm
  by_cases ht : reTest rule.alts fieldName = true
  · rw [if_pos ht] at heq
    have hm' := Option.some.inj heq
    subst hm'
    have hconf : rule.confidence = 0.95 ∨ rule.confidence = 0.7 := by
      simp only [genderPatterns, List.mem_cons, List.not_mem_nil, or_false] at hrule
      rcases hrule with rfl | rfl
      · left; rfl
      · right; rfl
    constructor
    · refine ⟨rule, hrule, ht, ?_⟩
      by_cases hb : genderValueBonus value = true
      · simp only [hb, and_true, if_pos, if_true]
        norm_num
      · simp only [hb, and_false, if_neg, if_false]
        simp [hb]
    · by_cases hb : genderValueBonus value = true
      · rcases hconf with h | h <;>
          simp only [h, hb, and_true, if_true] <;> norm_num
      · rcases hconf with h | h <;>
          simp only [h, hb, and_false, if_false] <;> norm_num
  · rw [if_neg ht] at heq
    cases heq

unseal Rat.add Rat.mul Rat.sub Rat.inv Rat.ofScientific in
theorem gender_match_confidence_witness :
    ((⟨21 / 20, "gender", none, "string", some "normalizeGender",
        some [("m", "male"), ("male", "male"), ("man", "male"),
              ("f", "female"), ("female", "female"), ("woman", "female"),
              ("o", "other"), ("other", "other"),
              ("u", "unknown"), ("unknown", "unknown"), ("n/a", "unknown")],
        none, none, none, none⟩ : FieldMatch)
      ∈ testPatterns "gender" (.str "male") genderPatterns "gender" "string")
    ∧ ((∃ rule ∈ genderPatterns, reTest rule.alts "gender" = true ∧
        (21 : ℚ) / 20 = rule.confidence +
          (if genderValueBonus (.str "male") = true then 1 / 10 else 0))
      ∧ (21 : ℚ) / 20 ≤ 21 / 20) := by
  refine ⟨by decide, ?_⟩
  exact gender_match_confidence "gender" (.str "male") "string"
    ⟨21 / 20, "gender", none, "string", some "normalizeGender",
      some [("m", "male"), ("male", "male"), ("man", "male"),
            ("f", "female"), ("female", "female"), ("woman", "female"),
            ("o", "other"), ("other", "other"),
            ("u", "unknown"), ("unknown", "unknown"), ("n/a", "unknown")],
      none, none, none, none⟩ (by decide)

/-! ### Synthesis confidence bounds (claim C6) -/

unseal Rat.add Rat.mul Rat.sub Rat.inv Rat.ofScientific in
theorem allPatternRules_conf_bounds :
    ∀ r ∈ identifierPatterns ++ namePatterns ++ genderPatterns ++ agePatterns ++
        contactPatterns ++ addressPatterns ++ clinicalPatterns ++ emergencyPatterns,
      0 ≤ r.confidence ∧ r.confidence ≤ 19 / 20 := by decide

theorem testPatterns_conf_bounds (fieldName : String) (value : Json)
    (patterns : List PatternRule) (category vt : String)
    (hp : ∀ r ∈ patterns, 0 ≤ r.confidence ∧ r.confidence ≤ 19 / 20) :
    ∀ m ∈ testPatterns fieldName value patterns category vt,
      0 ≤ m.confidence ∧ m.confidence ≤ 21 / 20 := by
  intro m hm
  unfold testPatterns at hm
  rw [List.mem_filterMap] at hm
  obtain ⟨rule, hrule, heq⟩ := hm
  by_cases ht : reTest rule.alts fieldName = true
  · rw [if_pos ht] at heq
    have hm' := Option.some.inj heq
    subst hm'
    obtain ⟨h0, h1⟩ := hp rule hrule
    dsimp only
    have e : (0.1 : ℚ) = 1 / 10 := by norm_num
    by_cases hb : category = "gender" ∧ genderValueBonus value = true
    · rw [if_pos hb, e]
      constructor <;> linarith
    · rw [if_neg hb]
      constructor <;> linarith
  · rw [if_neg ht] at heq
    cases heq

theorem analyzeField_conf_bounds (fieldName : String) (value : Json) :
    ∀ m ∈ analyzeField fieldName value,
      0 ≤ m.confidence ∧ m.confidence ≤ 21 / 20 := by
  intro m hm
  unfold analyzeField at hm
  rw [mem_stableSort] at hm
  have hb := allPatternRules_conf_bounds
  simp only [List.mem_append] at hm hb
  rcases hm with ((((((h | h) | h) | h) | h) | h) | h) | h <;>
    exact testPatterns_conf_bounds _ _ _ _ _ (fun r hr => hb r (by tauto)) m h

mutual
theorem travDet_conf_bounds : (j : Json) → (p : String) →
    ∀ d ∈ travDet j p, 0 ≤ d.bestMatch.confidence ∧ d.bestMatch.confidence ≤ 21 / 20
  | .obj fields, p => travDetFields_conf_bounds fields p
  | .arr items, p => travDetItems_conf_bounds items p 0
  | .null, _ => by intro d hd; cases hd
  | .bool _, _ => by intro d hd; cases hd
  | .num _, _ => by intro d hd; cases hd
  | .str _, _ => by intro d hd; cases hd

theorem travDetFields_conf_bounds : (fields : List (String × Json)) → (p : String) →
    ∀ d ∈ travDetFields fields p,
      0 ≤ d.bestMatch.confidence ∧ d.bestMatch.confidence ≤ 21 / 20
  | [], _ => by intro d hd; cases hd
  | (key, value) :: rest, p => by
    intro d hd
    unfold travDetFields at hd
    simp only [List.mem_append] at hd
    rcases hd with (hd | hd) | hd
    · cases hms : analyzeField key value with
      | nil => rw [hms] at hd; cases hd
      | cons m tail =>
        rw [hms] at hd
        rcases List.mem_singleton.mp hd with rfl
        exact analyzeField_conf_bounds key value m (by rw [hms]; exact List.mem_cons_self _ _)
    · by_cases ho : value.objLike = true
      · rw [if_pos ho] at hd
        exact travDet_conf_bounds value (joinPath p key) d hd
      · rw [if_neg ho] at hd
        cases hd
    · exact travDetFields_conf_bounds rest p d hd

theorem travDetItems_conf_bounds : (items : List Json) → (p : String) → (i : Nat) →
    ∀ d ∈ travDetItems items p i,
      0 ≤ d.bestMatch.confidence ∧ d.bestMatch.confidence ≤ 21 / 20
  | [], _, _ => by intro d hd; cases hd
  | item :: rest, p, i => by
    intro d hd
    unfold travDetItems at hd
    simp only [List.mem_append] at hd
    rcases hd with hd | hd
    · by_cases ho : (item.objLike || item = Json.null) = true
      · rw [if_pos ho] at hd
        exact travDet_conf_bounds item (p ++ "[" ++ toString i ++ "]") d hd
      · rw [if_neg ho] at hd
        cases hms : analyzeField (((strSplitOnDot p).getLast?).getD "") item with
        | nil => rw [hms] at hd; cases hd
        | cons m tail =>
          rw [hms] at hd
          rcases List.mem_singleton.mp hd with rfl
          exact analyzeField_conf_bounds _ item m (by rw [hms]; exact List.mem_cons_self _ _)
    · exact travDetItems_conf_bounds rest p (i + 1) d hd
end

theorem mem_insertConsolidated (f x : DetectedField) :
    ∀ acc : List DetectedField, x ∈ insertConsolidated acc f → x ∈ acc ∨ x = f := by
  intro acc
  induction acc with
  | nil =>
    intro hx
    right
    exact List.mem_singleton.mp hx
  | cons g gs ih =>
    intro hx
    unfold insertConsolidated at hx
    by_cases hp : g.path = f.path
    · rw [if_pos hp] at hx
      by_cases hc : g.bestMatch.confidence < f.bestMatch.confidence
      · rw [if_pos hc] at hx
        rcases List.mem_cons.mp hx with rfl | hx
        · right; rfl
        · left; exact List.mem_cons_of_mem _ hx
      · rw [if_neg hc] at hx
        left; exact hx
    · rw [if_neg hp] at hx
      rcases List.mem_cons.mp hx with rfl | hx
      · left; exact List.mem_cons_self _ _
      · rcases ih hx with h | h
        · left; exact List.mem_cons_of_mem _ h
        · right; exact h

theorem mem_consolidate_foldl (x : DetectedField) :
    ∀ (l acc : List DetectedField),
      x ∈ l.foldl insertConsolidated acc → x ∈ acc ∨ x ∈ l := by
  intro l
  induction l with
  | nil => intro acc hx; left; exact hx
  | cons f rest ih =>
    intro acc hx
    rw [List.foldl_cons] at hx
    rcases ih (insertConsolidated acc f) hx with h | h
    · rcases mem_insertConsolidated f x acc h with h' | h'
      · left; exact h'
      · right; rw [h']; exact List.mem_cons_self _ _
    · right; exact List.mem_cons_of_mem _ h

theorem mem_consolidateFields (detected : List DetectedField) (x : DetectedField)
    (hx : x ∈ consolidateFields detected) : x ∈ detected := by
  rcases mem_consolidate_foldl x detected [] hx with h | h
  · cases h
  · exact h

theorem confFold_eq_sum (l : List DetectedField) (init : ℚ) :
    l.foldl (fun s f => s + f.bestMatch.confidence) init
      = init + (l.map fun f => f.bestMatch.confidence).sum := by
  induction l generalizing init with
  | nil => simp
  | cons f rest ih =>
    rw [List.foldl_cons, ih]
    simp only [List.map_cons, List.sum_cons]
    ring

unseal Rat.add Rat.mul Rat.sub Rat.inv Rat.ofScientific in
/-- Claim C6, counterexample: for the document `{"gender": "male"}` (not
FHIR-structured, one detected field whose best match is the gender rule with
bonus) the synthesis confidence is the mean 21/20 = 1.05, outside [0, 1]. -/
theorem synthesized_confidence_cex :
    (analyzeAndGenerate (.obj [("gender", .str "male")])).confidence = 21 / 20
    ∧ ¬ ((21 : ℚ) / 20 ≤ 1) := by
  refine ⟨by decide, by decide⟩

/-- Claim C6 as amended: for every synthesis run the confidence lies in
[0, 21/20] — not [0, 1]: the unclamped gender bonus can push a best-match
confidence, and hence the mean, to 1.05.  In passthrough mode it is the fixed
0.95, and with no detected fields (non-passthrough) it is 0. -/
theorem synthesized_confidence_bounds (json : Json) :
    (0 ≤ (analyzeAndGenerate json).confidence
      ∧ (analyzeAndGenerate json).confidence ≤ 21 / 20)
    ∧ (isFhirStructured json = true → (analyzeAndGenerate json).confidence = 0.95)
    ∧ (isFhirStructured json = false →
        (analyzeAndGenerate json).analysis.detectedFields = 0 →
        (analyzeAndGenerate json).confidence = 0) := by
  by_cases hf : isFhirStructured json = true
  · refine ⟨?_, fun _ => ?_, fun hc _ => ?_⟩
    · unfold analyzeAndGenerate
      rw [if_pos hf]
      norm_num
    · unfold analyzeAndGenerate
      rw [if_pos hf]
    · rw [hf] at hc; cases hc
  · have hbound : ∀ d ∈ detectFields json "",
        0 ≤ d.bestMatch.confidence ∧ d.bestMatch.confidence ≤ 21 / 20 :=
      fun d hd => travDet_conf_bounds json "" d (mem_consolidateFields _ d hd)
    refine ⟨?_, fun hc => absurd hc hf, ?_⟩
    · unfold analyzeAndGenerate
      rw [if_neg hf]
      dsimp only
      cases hdf : detectFields json "" with
      | nil => norm_num
      | cons d0 tail =>
        rw [hdf] at hbound
        have hpos : (0 : ℚ) < ((d0 :: tail).length : ℚ) := by
          exact_mod_cast Nat.succ_pos tail.length
        rw [if_pos (by simp), confFold_eq_sum, zero_add]
        constructor
        · apply div_nonneg _ (le_of_lt hpos)
          apply List.sum_nonneg
          intro q hq
          obtain ⟨d, hd, rfl⟩ := List.mem_map.mp hq
          exact (hbound d hd).1
        · rw [div_le_iff₀ hpos]
          have hsum : ((d0 :: tail).map fun f => f.bestMatch.confidence).sum
              ≤ ((d0 :: tail).map fun f => f.bestMatch.confidence).length •
                ((21 : ℚ) / 20) := by
            apply List.sum_le_card_nsmul
            intro q hq
            obtain ⟨d, hd, rfl⟩ := List.mem_map.mp hq
            exact (hbound d hd).2
          rw [List.length_map] at hsum
          calc ((d0 :: tail).map fun f => f.bestMatch.confidence).sum
              ≤ (d0 :: tail).length • ((21 : ℚ) / 20) := hsum
            _ = ((d0 :: tail).length : ℚ) * (21 / 20) := by rw [nsmul_eq_mul]
            _ = 21 / 20 * ((d0 :: tail).length : ℚ) := by ring
    · intro hf2 hzero
      unfold analyzeAndGenerate at hzero ⊢
      rw [if_neg hf] at hzero ⊢
      dsimp only at hzero ⊢
      rw [if_neg (by omega)]

theorem synthesized_confidence_bounds_witness :
    ((0 ≤ (analyzeAndGenerate (.obj [])).confidence
      ∧ (analyzeAndGenerate (.obj [])).confidence ≤ 21 / 20)
    ∧ isFhirStructured (.obj []) = false
    ∧ (analyzeAndGenerate (.obj [])).analysis.detectedFields = 0
    ∧ (analyzeAndGenerate (.obj [])).confidence = 0)
    ∧ (isFhirStructured (.obj [("resourceType", .str "Patient")]) = true
    ∧ (analyzeAndGenerate (.obj [("resourceType", .str "Patient")])).confidence = 0.95) :=
  ⟨⟨(synthesized_confidence_bounds (.obj [])).1, by decide, by decide,
    (synthesized_confidence_bounds (.obj [])).2.2 (by decide) (by decide)⟩,
   by decide,
   (synthesized_confidence_bounds (.obj [("resourceType", .str "Patient")])).2.1
     (by decide)⟩

/-! ### Consolidation invariants (claim C8) -/

theorem paths_insertConsolidated (f : DetectedField) :
    ∀ acc : List DetectedField,
      (insertConsolidated acc f).map (·.path)
        = if f.path ∈ acc.map (·.path) then acc.map (·.path)
          else acc.map (·.path) ++ [f.path] := by
  intro acc
  induction acc with
  | nil => simp [insertConsolidated]
  | cons g gs ih =>
    unfold insertConsolidated
    by_cases hp : g.path = f.path
    · rw [if_pos hp]
      by_cases hc : g.bestMatch.confidence < f.bestMatch.confidence
      · rw [if_pos hc]
        simp [hp]
      · rw [if_neg hc]
        simp [hp]
    · rw [if_neg hp]
      have hne : f.path ∈ (g :: gs).map (·.path) ↔ f.path ∈ gs.map (·.path) := by
        simp only [List.map_cons, List.mem_cons]
        constructor
        · rintro (h | h)
          · exact absurd h.symm hp
          · exact h
        · exact Or.inr
      by_cases hin : f.path ∈ gs.map (·.path)
      · rw [if_pos (hne.mpr hin)]
        simp only [List.map_cons, ih, if_pos hin]
      · rw [if_neg (fun h => hin (hne.mp h))]
        simp only [List.map_cons, ih, if_neg hin, List.cons_append]

theorem nodup_insertConsolidated (f : DetectedField) (acc : List DetectedField)
    (h : (acc.map (·.path)).Nodup) :
    ((insertConsolidated acc f).map (·.path)).Nodup := by
  rw [paths_insertConsolidated]
  by_cases hin : f.path ∈ acc.map (·.path)
  · rw [if_pos hin]; exact h
  · rw [if_neg hin]
    rw [List.nodup_append]
    exact ⟨h, List.nodup_singleton _, fun a ha hb => by
      rw [List.mem_singleton] at hb
      exact hin (hb ▸ ha)⟩

theorem nodup_consolidate_foldl :
    ∀ (l acc : List DetectedField), (acc.map (·.path)).Nodup →
      ((l.foldl insertConsolidated acc).map (·.path)).Nodup := by
  intro l
  induction l with
  | nil => intro acc h; exact h
  | cons f rest ih =>
    intro acc h
    rw [List.foldl_cons]
    exact ih _ (nodup_insertConsolidated f acc h)

theorem insertConsolidated_keeps (f g : DetectedField) :
    ∀ acc : List DetectedField, g ∈ acc →
      ∃ g' ∈ insertConsolidated acc f, g'.path = g.path ∧
        g.bestMatch.confidence ≤ g'.bestMatch.confidence := by
  intro acc
  induction acc with
  | nil => intro h; cases h
  | cons h0 hs ih =>
    intro hg
    unfold insertConsolidated
    rcases List.mem_cons.mp hg with rfl | hg'
    · by_cases hp : g.path = f.path
      · rw [if_pos hp]
        by_cases hc : g.bestMatch.confidence < f.bestMatch.confidence
        · rw [if_pos hc]
          exact ⟨f, List.mem_cons_self _ _, hp.symm, le_of_lt hc⟩
        · rw [if_neg hc]
          exact ⟨g, List.mem_cons_self _ _, rfl, le_refl _⟩
      · rw [if_neg hp]
        exact ⟨g, List.mem_cons_self _ _, rfl, le_refl _⟩
    · by_cases hp : h0.path = f.path
      · rw [if_pos hp]
        by_cases hc : h0.bestMatch.confidence < f.bestMatch.confidence
        · rw [if_pos hc]
          exact ⟨g, List.mem_cons_of_mem _ hg', rfl, le_refl _⟩
        · rw [if_neg hc]
          exact ⟨g, List.mem_cons_of_mem _ hg', rfl, le_refl _⟩
      · rw [if_neg hp]
        obtain ⟨g', hmem, hpath, hconf⟩ := ih hg'
        exact ⟨g', List.mem_cons_of_mem _ hmem, hpath, hconf⟩

theorem insertConsolidated_adds (f : DetectedField) :
    ∀ acc : List DetectedField,
      ∃ g' ∈ insertConsolidated acc f, g'.path = f.path ∧
        f.bestMatch.confidence ≤ g'.bestMatch.confidence := by
  intro acc
  induction acc with
  | nil => exact ⟨f, List.mem_singleton.mpr rfl, rfl, le_refl _⟩
  | cons g gs ih =>
    unfold insertConsolidated
    by_cases hp : g.path = f.path
    · rw [if_pos hp]
      by_cases hc : g.bestMatch.confidence < f.bestMatch.confidence
      · rw [if_pos hc]
        exact ⟨f, List.mem_cons_self _ _, rfl, le_refl _⟩
      · rw [if_neg hc]
        exact ⟨g, List.mem_cons_self _ _, hp, le_of_not_lt hc⟩
    · rw [if_neg hp]
      obtain ⟨g', hmem, hpath, hconf⟩ := ih
      exact ⟨g', List.mem_cons_of_mem _ hmem, hpath, hconf⟩

theorem consolidate_foldl_keeps :
    ∀ (l acc : List DetectedField) (g : DetectedField), g ∈ acc →
      ∃ g' ∈ l.foldl insertConsolidated acc, g'.path = g.path ∧
        g.bestMatch.confidence ≤ g'.bestMatch.confidence := by
  intro l
  induction l with
  | nil => intro acc g hg; exact ⟨g, hg, rfl, le_refl _⟩
  | cons f rest ih =>
    intro acc g hg
    rw [List.foldl_cons]
    obtain ⟨g1, hmem1, hpath1, hconf1⟩ := insertConsolidated_keeps f g acc hg
    obtain ⟨g', hmem, hpath, hconf⟩ := ih (insertConsolidated acc f) g1 hmem1
    exact ⟨g', hmem, hpath.trans hpath1, le_trans hconf1 hconf⟩

theorem consolidate_foldl_covers (d : DetectedField) :
    ∀ (l acc : List DetectedField), d ∈ l →
      ∃ kept ∈ l.foldl insertConsolidated acc, kept.path = d.path ∧
        d.bestMatch.confidence ≤ kept.bestMatch.confidence := by
  intro l
  induction l with
  | nil => intro acc hd; cases hd
  | cons f rest ih =>
    intro acc hd
    rw [List.foldl_cons]
    rcases List.mem_cons.mp hd with rfl | hd'
    · obtain ⟨g1, hmem1, hpath1, hconf1⟩ := insertConsolidated_adds d acc
      obtain ⟨g', hmem, hpath, hconf⟩ :=
        consolidate_foldl_keeps rest (insertConsolidated acc d) g1 hmem1
      exact ⟨g', hmem, hpath.trans hpath1, le_trans hconf1 hconf⟩
    · exact ih (insertConsolidated acc f) hd'

/-- Claim C8: `detectFields` returns at most one `DetectedField` per unique
source path (the mapped path list has no duplicates), and for every entry the
raw traversal produced for a path, the kept entry at that path has a
best-match confidence at least as high. -/
theorem detectFields_consolidation (json : Json) (basePath : String) :
    ((detectFields json basePath).map (·.path)).Nodup
    ∧ ∀ d ∈ travDet json basePath,
        ∃ kept ∈ detectFields json basePath, kept.path = d.path ∧
          d.bestMatch.confidence ≤ kept.bestMatch.confidence := by
  constructor
  · exact nodup_consolidate_foldl (travDet json basePath) [] (by simp)
  · intro d hd
    exact consolidate_foldl_covers d (travDet json basePath) [] hd

unseal Rat.add Rat.mul Rat.sub Rat.inv Rat.ofScientific in
theorem detectFields_consolidation_witness :
    (((detectFields (.obj [("gender", .str "male")]) "").map (·.path)).Nodup)
    ∧ (∃ kept ∈ detectFields (.obj [("gender", .str "male")]) "",
        kept.path = "gender" ∧
          (21 : ℚ) / 20 ≤ kept.bestMatch.confidence) := by
  refine ⟨(detectFields_consolidation (.obj [("gender", .str "male")]) "").1, ?_⟩
  exact (detectFields_consolidation (.obj [("gender", .str "male")]) "").2
    ⟨"gender", .str "male",
      [⟨21 / 20, "gender", none, "string", some "normalizeGender",
        some [("m", "male"), ("male", "male"), ("man", "male"),
              ("f", "female"), ("female", "female"), ("woman", "female"),
              ("o", "other"), ("other", "other"),
              ("u", "unknown"), ("unknown", "unknown"), ("n/a", "unknown")],
        none, none, none, none⟩],
      ⟨21 / 20, "gender", none, "string", some "normalizeGender",
        some [("m", "male"), ("male", "male"), ("man", "male"),
              ("f", "female"), ("female", "female"), ("woman", "female"),
              ("o", "other"), ("other", "other"),
              ("u", "unknown"), ("unknown", "unknown"), ("n/a", "unknown")],
        none, none, none, none⟩⟩
    (by decide)

theorem detect_nonempty_and_positive_witness :
    (detectResourceType registeredEngines (.obj [("resourceType", .str "Patient")]) ≠ []
    ∧ (getBestMatch registeredEngines (.obj [("resourceType", .str "Patient")])).isSome = true)
    ∧ (⟨"Patient", 100, ["resourceType field"],
        "Explicit FHIR resourceType field found: Patient"⟩ : ResourceDetectionResult).resourceType ≠ "Unknown"
    ∧ 0 < (⟨"Patient", 100, ["resourceType field"],
        "Explicit FHIR resourceType field found: Patient"⟩ : ResourceDetectionResult).confidence :=
  ⟨⟨(detect_nonempty_and_positive registeredEngines _).1,
    (detect_nonempty_and_positive registeredEngines _).2.1⟩,
   by decide,
   (detect_nonempty_and_positive registeredEngines
      (.obj [("resourceType", .str "Patient")])).2.2
     ⟨"Patient", 100, ["resourceType field"],
       "Explicit FHIR resourceType field found: Patient"⟩
     (by decide) (by decide)⟩

/-! ### Structure analysis: depth asymmetry (claim C2) -/

theorem merge_maxDepth (a b : StructureAnalysis) :
    (a.merge b).maxDepth = max a.maxDepth b.maxDepth := rfl

theorem merge_zero_left (x : StructureAnalysis) :
    StructureAnalysis.merge ⟨0, false, false, 0, []⟩ x = x := by
  cases x
  simp [StructureAnalysis.merge]

theorem merge_assoc (a b c : StructureAnalysis) :
    (a.merge b).merge c = a.merge (b.merge c) := by
  cases a; cases b; cases c
  simp [StructureAnalysis.merge, Nat.max_assoc, Bool.or_assoc, Nat.add_assoc]

theorem le_trav_maxDepth (j : Json) (p : String) (d : Nat) :
    d ≤ (trav j p d).maxDepth := by
  cases j <;> simp [trav, StructureAnalysis.merge]

mutual
theorem trav_md_path : (j : Json) → (p q : String) → (d : Nat) →
    (trav j p d).maxDepth = (trav j q d).maxDepth
  | .arr l, p, q, d => by
    simp only [trav, merge_maxDepth]
    rw [travArr_md_path l p q d 0 0]
  | .obj fs, p, q, d => by
    simp only [trav, merge_maxDepth]
    rw [travObj_md_path fs p q d]
  | .null, _, _, _ => rfl
  | .bool _, _, _, _ => rfl
  | .num _, _, _, _ => rfl
  | .str _, _, _, _ => rfl

theorem travArr_md_path : (l : List Json) → (p q : String) → (d : Nat) →
    (i1 i2 : Nat) → (travArr l p d i1).maxDepth = (travArr l q d i2).maxDepth
  | [], _, _, _, _, _ => rfl
  | item :: rest, p, q, d, i1, i2 => by
    unfold travArr
    dsimp only
    by_cases ho : item.objLike = true
    · rw [if_pos ho, if_pos ho]
      simp only [merge_maxDepth]
      rw [trav_md_path item (p ++ "[" ++ toString i1 ++ "]")
            (q ++ "[" ++ toString i2 ++ "]") d,
          travArr_md_path rest p q d (i1 + 1) (i2 + 1)]
    · rw [if_neg ho, if_neg ho]
      exact travArr_md_path rest p q d (i1 + 1) (i2 + 1)

theorem travObj_md_path : (fs : List (String × Json)) → (p q : String) →
    (d : Nat) → (travObj fs p d).maxDepth = (travObj fs q d).maxDepth
  | [], _, _, _ => rfl
  | (k, v) :: rest, p, q, d => by
    unfold travObj
    dsimp only
    by_cases ho : v.objLike = true
    · rw [if_pos ho, if_pos ho]
      simp only [merge_maxDepth]
      rw [trav_md_path v (joinPath p k) (joinPath q k) (d + 1),
          travObj_md_path rest p q d]
    · rw [if_neg ho, if_neg ho]
      simp only [merge_maxDepth]
      rw [travObj_md_path rest p q d]
end

mutual
theorem trav_count : (j : Json) → (p : String) → (d : Nat) →
    (trav j p d).fieldCount = (trav j p d).allFields.length
  | .arr l, p, d => by
    simp only [trav, StructureAnalysis.merge]
    simpa using travArr_count l p d 0
  | .obj fs, p, d => by
    simp only [trav, StructureAnalysis.merge]
    simpa using travObj_count fs p d
  | .null, _, _ => rfl
  | .bool _, _, _ => rfl
  | .num _, _, _ => rfl
  | .str _, _, _ => rfl

theorem travArr_count : (l : List Json) → (p : String) → (d : Nat) → (i : Nat) →
    (travArr l p d i).fieldCount = (travArr l p d i).allFields.length
  | [], _, _, _ => rfl
  | item :: rest, p, d, i => by
    unfold travArr
    dsimp only
    by_cases ho : item.objLike = true
    · rw [if_pos ho]
      simp only [StructureAnalysis.merge, List.length_append]
      rw [trav_count item (p ++ "[" ++ toString i ++ "]") d,
          travArr_count rest p d (i + 1)]
    · rw [if_neg ho]
      exact travArr_count rest p d (i + 1)

theorem travObj_count : (fs : List (String × Json)) → (p : String) → (d : Nat) →
    (travObj fs p d).fieldCount = (travObj fs p d).allFields.length
  | [], _, _ => rfl
  | (k, v) :: rest, p, d => by
    unfold travObj
    dsimp only
    by_cases ho : v.objLike = true
    · rw [if_pos ho]
      simp only [StructureAnalysis.merge, List.length_append, List.length_cons,
        List.length_nil]
      rw [trav_count v (joinPath p k) (d + 1), travObj_count rest p d]
    · rw [if_neg ho]
      simp only [StructureAnalysis.merge, List.length_append, List.length_cons,
        List.length_nil]
      rw [travObj_count rest p d]
end

theorem mem_travObj_allFields (k : String) (v : Json) :
    ∀ (fs : List (String × Json)) (p : String) (d : Nat), (k, v) ∈ fs →
      joinPath p k ∈ (travObj fs p d).allFields := by
  intro fs
  induction fs with
  | nil => intro p d h; cases h
  | cons e rest ih =>
    intro p d h
    obtain ⟨k0, v0⟩ := e
    unfold travObj
    dsimp only
    rcases List.mem_cons.mp h with heq | h'
    · have hk : k0 = k := congrArg Prod.fst heq.symm
      subst hk
      simp [StructureAnalysis.merge]
    · have := ih p d h'
      simp only [StructureAnalysis.merge, List.mem_append, List.mem_cons,
        List.cons_append, List.nil_append]
      tauto

theorem travObj_append :
    ∀ (l1 l2 : List (String × Json)) (p : String) (d : Nat),
      travObj (l1 ++ l2) p d
        = StructureAnalysis.merge (travObj l1 p d) (travObj l2 p d) := by
  intro l1
  induction l1 with
  | nil =>
    intro l2 p d
    rw [List.nil_append]
    show travObj l2 p d = StructureAnalysis.merge ⟨0, false, false, 0, []⟩ _
    rw [merge_zero_left]
  | cons e rest ih =>
    intro l2 p d
    obtain ⟨k, v⟩ := e
    rw [List.cons_append]
    simp only [travObj]
    rw [ih l2 p d]
    simp only [merge_assoc]

theorem trav_arr_singleton_maxDepth (v : Json) (p q : String) (d : Nat)
    (hv : v.objLike = true) :
    (trav (.arr [v]) p d).maxDepth = (trav v q d).maxDepth := by
  have harr : (trav (.arr [v]) p d).maxDepth
      = max d (trav v (p ++ "[" ++ toString 0 ++ "]") d).maxDepth := by
    simp only [trav, merge_maxDepth]
    unfold travArr
    dsimp only
    rw [if_pos hv]
    unfold travArr
    simp [merge_maxDepth]
  rw [harr, trav_md_path v (p ++ "[" ++ toString 0 ++ "]") q d]
  exact Nat.max_eq_right (le_trav_maxDepth v q d)

/-- Claim C2: the traversal of `analyzeStructure` marks `hasArrays` on every
array; marks `hasNestedObjects` on every object visited at depth > 0; records
each object key's dotted path in `allFields`, with `fieldCount` counting
exactly those paths; visits object-like array elements at the *same* depth
(the maxDepth of a one-element array wrapper equals that of its element at the
same depth); and increments depth only when descending from an object key — so
wrapping an object-valued field's value in a one-element array leaves the
computed `maxDepth` unchanged. -/
theorem analyzeStructure_depth_asymmetry :
    (∀ (l : List Json) (p : String) (d : Nat),
      (trav (.arr l) p d).hasArrays = true)
    ∧ (∀ (fs : List (String × Json)) (p : String) (d : Nat), 0 < d →
        (trav (.obj fs) p d).hasNestedObjects = true)
    ∧ (∀ (fs : List (String × Json)) (p : String) (d : Nat) (k : String) (v : Json),
        (k, v) ∈ fs → joinPath p k ∈ (trav (.obj fs) p d).allFields)
    ∧ (∀ j : Json,
        (analyzeStructure j).fieldCount = (analyzeStructure j).allFields.length)
    ∧ (∀ (v : Json) (p q : String) (d : Nat), v.objLike = true →
        (trav (.arr [v]) p d).maxDepth = (trav v q d).maxDepth)
    ∧ (∀ (fs1 fs2 : List (String × Json)) (k : String) (v : Json),
        v.objLike = true →
        (analyzeStructure (.obj (fs1 ++ (k, .arr [v]) :: fs2))).maxDepth
          = (analyzeStructure (.obj (fs1 ++ (k, v) :: fs2))).maxDepth) := by
  refine ⟨?_, ?_, ?_, ?_, ?_, ?_⟩
  · intro l p d
    simp [trav, StructureAnalysis.merge]
  · intro fs p d hd
    simp [trav, StructureAnalysis.merge, Nat.pos_iff_ne_zero.mp hd, hd]
  · intro fs p d k v hmem
    show joinPath p k ∈ (StructureAnalysis.merge _ _).allFields
    simp only [StructureAnalysis.merge, List.nil_append]
    exact mem_travObj_allFields k v fs p d hmem
  · exact fun j => trav_count j "" 0
  · exact fun v p q d hv => trav_arr_singleton_maxDepth v p q d hv
  · intro fs1 fs2 k v hv
    unfold analyzeStructure
    show (StructureAnalysis.merge _ _).maxDepth = (StructureAnalysis.merge _ _).maxDepth
    simp only [merge_maxDepth]
    congr 1
    rw [travObj_append, travObj_append]
    simp only [merge_maxDepth]
    congr 1
    show (travObj ((k, Json.arr [v]) :: fs2) "" 0).maxDepth
        = (travObj ((k, v) :: fs2) "" 0).maxDepth
    unfold travObj
    dsimp only
    rw [if_pos (by rfl), if_pos hv]
    simp only [merge_maxDepth]
    congr 1
    congr 1
    exact trav_arr_singleton_maxDepth v (joinPath "" k) (joinPath "" k) 1 hv

theorem analyzeStructure_depth_asymmetry_witness :
    ((trav (.arr [.obj [("b", .null)]]) "x" 2).hasArrays = true)
    ∧ (0 < 1 ∧ (trav (.obj [("a", .null)]) "p" 1).hasNestedObjects = true)
    ∧ (("a", Json.null) ∈ [("a", Json.null)]
      ∧ joinPath "" "a" ∈ (trav (.obj [("a", .null)]) "" 0).allFields)
    ∧ ((analyzeStructure (.obj [("a", .obj [("b", .null)])])).fieldCount
      = (analyzeStructure (.obj [("a", .obj [("b", .null)])])).allFields.length)
    ∧ ((Json.obj [("b", .null)]).objLike = true
      ∧ (trav (.arr [.obj [("b", .null)]]) "x" 2).maxDepth
        = (trav (.obj [("b", .null)]) "y" 2).maxDepth)
    ∧ ((analyzeStructure (.obj [("a", .arr [.obj [("b", .null)]])])).maxDepth
      = (analyzeStructure (.obj [("a", .obj [("b", .null)])])).maxDepth) :=
  ⟨analyzeStructure_depth_asymmetry.1 [.obj [("b", .null)]] "x" 2,
   ⟨by decide, analyzeStructure_depth_asymmetry.2.1 [("a", .null)] "p" 1 (by decide)⟩,
   ⟨by decide, analyzeStructure_depth_asymmetry.2.2.1 [("a", .null)] "" 0 "a" .null
     (by decide)⟩,
   analyzeStructure_depth_asymmetry.2.2.2.1 (.obj [("a", .obj [("b", .null)])]),
   ⟨by decide, analyzeStructure_depth_asymmetry.2.2.2.2.1 (.obj [("b", .null)]) "x" "y" 2
     (by decide)⟩,
   analyzeStructure_depth_asymmetry.2.2.2.2.2 [] [] "a" (.obj [("b", .null)])
     (by decide)⟩

end FHIRConv
